import Mathlib

set_option linter.unusedVariables false
set_option maxRecDepth 1000000

/-!
Verification development for the scene-construction engine in
`skills_based.py`.

Modelling conventions:
* Python floats are modelled as exact rationals (`ℚ`); float rounding is
  not modelled.
* The shared pseudo-random source is modelled as two oracle streams inside
  `Ctx` (`rngQ` for `random.uniform`/`random.random` draws, `rngN` for
  `random.randint`/`random.choice` draws) together with a running index
  that is threaded through every operation in the order the source
  consumes randomness.
* The transcendental functions `math.cos`, `math.sin`, `math.atan2` and
  `math.hypot` are modelled as oracle functions on degrees (`cosd`,
  `sind`, `atan2d`, `hypotQ`); all theorems are universally quantified
  over the oracles unless a concrete evaluation is required.
* Mutation is modelled by explicit state passing: every `assign_geometry`
  returns the updated object together with the advanced random index.
-/

abbrev Pt : Type := ℚ × ℚ

/-- Oracle context: random streams, trigonometric oracles and a fuel bound
for the one unbounded `while` loop in the source (`AxisObj.assign_geometry`'s
tick loop, which terminates whenever tick spacings are positive). -/
structure Ctx where
  rngQ : ℕ → ℚ
  rngN : ℕ → ℕ
  cosd : ℚ → ℚ
  sind : ℚ → ℚ
  atan2d : ℚ → ℚ → ℚ
  hypotQ : ℚ → ℚ → ℚ
  fuel : ℕ

/-- `random.uniform(lo, hi)`: one draw from the rational stream.  The draw
is modelled as the raw stream value (in the source it lies in `[lo, hi]`);
theorems quantify over all stream values, hence over all draws. -/
def uniform (ctx : Ctx) (i : ℕ) (lo hi : ℚ) : ℚ × ℕ :=
  (ctx.rngQ i, i + 1)

/-- `random.randint(lo, hi)` (with `lo ≤ hi`): one draw from the natural
stream, reduced into the inclusive range exactly as the source guarantees. -/
def randint (ctx : Ctx) (i : ℕ) (lo hi : ℕ) : ℕ × ℕ :=
  (lo + ctx.rngN i % (hi + 1 - lo), i + 1)

/-- `random.choice(l)` for a non-empty list `l`; the `d` argument is only a
formal default for the (unreachable) empty case, where the source raises. -/
def choice {α : Type} (ctx : Ctx) (i : ℕ) (l : List α) (d : α) : α × ℕ :=
  (l.getD (ctx.rngN i % l.length) d, i + 1)

/-- Python's float `%` for a positive modulus: `x - m * ⌊x / m⌋`. -/
def qmod (x m : ℚ) : ℚ := x - m * ((⌊x / m⌋ : ℤ) : ℚ)

/-- `angle_difference(a, b)` from the source:
`diff = abs(a - b) % 360; if diff > 180: diff = 360 - diff`. -/
def angle_difference (a b : ℚ) : ℚ :=
  let diff := qmod |a - b| 360
  if 180 < diff then 360 - diff else diff

/-- The four directions understood by `is_arrow_pointing_direction`
(the keys of its `direction_angles` dictionary). -/
inductive Direction where
  | upward
  | downward
  | leftward
  | rightward
deriving DecidableEq

/-- The `direction_angles` dictionary of `is_arrow_pointing_direction`:
`{"upward": 90, "downward": 270, "leftward": 180, "rightward": 0}`. -/
def direction_angles : Direction → ℚ
  | .upward => 90
  | .downward => 270
  | .leftward => 180
  | .rightward => 0

/-- Epsilon used by `_line_line_intersect`'s orientation test (`1e-9`). -/
def ORIENT_EPS : ℚ := 1 / 1000000000

/-- The `orientation` helper of `_line_line_intersect`. -/
def orientation (a b c : Pt) : ℕ :=
  let val := (b.2 - a.2) * (c.1 - b.1) - (b.1 - a.1) * (c.2 - b.2)
  if |val| < ORIENT_EPS then 0
  else if 0 < val then 1 else 2

/-- The `on_segment` helper of `_line_line_intersect`. -/
def on_segment (a b c : Pt) : Bool :=
  decide (min a.1 c.1 ≤ b.1 ∧ b.1 ≤ max a.1 c.1 ∧
          min a.2 c.2 ≤ b.2 ∧ b.2 ≤ max a.2 c.2)

/-- `_line_line_intersect(p1, p2, p3, p4)` from the source. -/
def line_line_intersect (p1 p2 p3 p4 : Pt) : Bool :=
  let o1 := orientation p1 p2 p3
  let o2 := orientation p1 p2 p4
  let o3 := orientation p3 p4 p1
  let o4 := orientation p3 p4 p2
  if o1 ≠ o2 ∧ o3 ≠ o4 then true
  else if o1 = 0 ∧ on_segment p1 p3 p2 then true
  else if o2 = 0 ∧ on_segment p1 p4 p2 then true
  else if o3 = 0 ∧ on_segment p3 p1 p4 then true
  else if o4 = 0 ∧ on_segment p3 p2 p4 then true
  else false

/-- `get_line_length_and_angle(p1, p2)`: length via `math.hypot`, angle via
`math.degrees(math.atan2(dy, dx)) % 360`; both transcendentals are oracles. -/
def get_line_length_and_angle (ctx : Ctx) (p1 p2 : Pt) : ℚ × ℚ :=
  let dx := p2.1 - p1.1
  let dy := p2.2 - p1.2
  (ctx.hypotQ dx dy, qmod (ctx.atan2d dy dx) 360)

/-- `rotate_point(pt, center, ang_deg)` from the source. -/
def rotate_point (ctx : Ctx) (pt center : Pt) (ang_deg : ℚ) : Pt :=
  let c := ctx.cosd ang_deg
  let s := ctx.sind ang_deg
  let dx := pt.1 - center.1
  let dy := pt.2 - center.2
  (center.1 + dx * c - dy * s, center.2 + dx * s + dy * c)

/-- Bounding box `(min_x, min_y, max_x, max_y)` as returned by `get_bbox`. -/
structure BBox where
  min_x : ℚ
  min_y : ℚ
  max_x : ℚ
  max_y : ℚ
deriving DecidableEq

/-!  ## The shape classes

Each Python class becomes a structure; the `_geometry_locked` attribute
(absent ⇔ false) becomes a `Bool` field `locked`.  The homogeneous
`sub_references` lists of each class are kept in typed fields in the order
the source appends them. -/

/-- `LineLow`. -/
structure LineLow where
  p1 : Pt
  p2 : Pt
  locked : Bool
deriving DecidableEq

/-- `LineLow.__init__(p1, p2)`. -/
def LineLow.init (p1 p2 : Option Pt) : LineLow :=
  match p1, p2 with
  | some a, some b => { p1 := a, p2 := b, locked := true }
  | _, _ => { p1 := (0, 0), p2 := (0, 0), locked := false }

/-- `LineLow.assign_geometry` (draws length, angle, cx, cy in order). -/
def LineLow.assign (ctx : Ctx) (l : LineLow) (i : ℕ) : LineLow × ℕ :=
  if l.locked then (l, i)
  else
    let (length, i) := uniform ctx i 10 30
    let (angle, i) := uniform ctx i 0 360
    let (cx, i) := uniform ctx i 20 80
    let (cy, i) := uniform ctx i 20 80
    let dx := (length / 2) * ctx.cosd angle
    let dy := (length / 2) * ctx.sind angle
    ({ l with p1 := (cx - dx, cy - dy), p2 := (cx + dx, cy + dy) }, i)

/-- `LineLow.get_bbox`. -/
def LineLow.get_bbox (l : LineLow) : BBox :=
  { min_x := min l.p1.1 l.p2.1, min_y := min l.p1.2 l.p2.2,
    max_x := max l.p1.1 l.p2.1, max_y := max l.p1.2 l.p2.2 }

/-- `OvalLow`. -/
structure OvalLow where
  center : Pt
  width : ℚ
  height : ℚ
  angle : ℚ
  locked : Bool
deriving DecidableEq

/-- `OvalLow.__init__(center, width, height, angle)`. -/
def OvalLow.init (center : Option Pt) (width height angle : Option ℚ) : OvalLow :=
  match center, width, height, angle with
  | some c, some w, some h, some a =>
    { center := c, width := w, height := h, angle := a, locked := true }
  | _, _, _, _ =>
    { center := (0, 0), width := 10, height := 10, angle := 0, locked := false }

/-- `OvalLow.assign_geometry` (draws cx, cy, w, h, ang in order). -/
def OvalLow.assign (ctx : Ctx) (o : OvalLow) (i : ℕ) : OvalLow × ℕ :=
  if o.locked then (o, i)
  else
    let (cx, i) := uniform ctx i 20 80
    let (cy, i) := uniform ctx i 20 80
    let (w, i) := uniform ctx i 10 30
    let (h, i) := uniform ctx i 10 30
    let (ang, i) := uniform ctx i 0 360
    ({ o with center := (cx, cy), width := w, height := h, angle := ang }, i)

/-- `OvalLow.get_bbox`. -/
def OvalLow.get_bbox (o : OvalLow) : BBox :=
  { min_x := o.center.1 - o.width / 2, min_y := o.center.2 - o.height / 2,
    max_x := o.center.1 + o.width / 2, max_y := o.center.2 + o.height / 2 }

/-- State-threaded map: runs a stateful function over a list left to right,
threading the random index (models `for child in sub_references: ...`). -/
def stMap {α β : Type} (f : α → ℕ → β × ℕ) : List α → ℕ → List β × ℕ
  | [], i => ([], i)
  | a :: as, i =>
    let (b, i') := f a i
    let (bs, i'') := stMap f as i'
    (b :: bs, i'')

/-- State-threaded repetition: builds `n` values with a stateful factory. -/
def stRepeat {α : Type} (f : ℕ → α × ℕ) : ℕ → ℕ → List α × ℕ
  | 0, i => ([], i)
  | n + 1, i =>
    let (a, i') := f i
    let (as, i'') := stRepeat f n i'
    (a :: as, i'')

/-- Fold a list of bounding boxes into their union, starting from `b`
(models the `min`/`max` comprehensions over child boxes). -/
def bboxUnion (b : BBox) (bs : List BBox) : BBox :=
  { min_x := (bs.map BBox.min_x).foldl min b.min_x,
    min_y := (bs.map BBox.min_y).foldl min b.min_y,
    max_x := (bs.map BBox.max_x).foldl max b.max_x,
    max_y := (bs.map BBox.max_y).foldl max b.max_y }

/-- `RectangleObj` (4 preallocated `LineLow` children). -/
structure RectangleObj where
  center : Pt
  width : ℚ
  height : ℚ
  angle : ℚ
  locked : Bool
  lines : List LineLow
deriving DecidableEq

/-- `RectangleObj.__init__(center, width, height, angle)`. -/
def RectangleObj.init (center : Option Pt) (width height angle : Option ℚ) :
    RectangleObj :=
  let base : RectangleObj :=
    match center, width, height, angle with
    | some c, some w, some h, some a =>
      { center := c, width := w, height := h, angle := a, locked := true,
        lines := [] }
    | _, _, _, _ =>
      { center := (0, 0), width := 0, height := 0, angle := 0, locked := false,
        lines := [] }
  { base with lines := List.replicate 4 (LineLow.init none none) }

/-- The corner list computed by `RectangleObj.assign_geometry` (axis-aligned
corners, rotated about the center when `angle != 0`). -/
def RectangleObj.corners (ctx : Ctx) (r : RectangleObj) : List Pt :=
  let half_w := r.width / 2
  let half_h := r.height / 2
  let cs := [(r.center.1 - half_w, r.center.2 - half_h),
             (r.center.1 + half_w, r.center.2 - half_h),
             (r.center.1 + half_w, r.center.2 + half_h),
             (r.center.1 - half_w, r.center.2 + half_h)]
  if r.angle ≠ 0 then cs.map (fun c => rotate_point ctx c r.center r.angle)
  else cs

/-- `RectangleObj.assign_geometry`. -/
def RectangleObj.assign (ctx : Ctx) (r : RectangleObj) (i : ℕ) :
    RectangleObj × ℕ :=
  let (r, i) :=
    if r.locked then (r, i)
    else
      let (cx, i) := uniform ctx i 30 70
      let (cy, i) := uniform ctx i 30 70
      let (w, i) := uniform ctx i 10 30
      let (h, i) := uniform ctx i 10 30
      let (a, i) := uniform ctx i 0 180
      ({ r with center := (cx, cy), width := w, height := h, angle := a }, i)
  let corners := RectangleObj.corners ctx r
  let r :=
    if r.lines.length = 4 then
      { r with lines := (List.range 4).map fun j =>
          { p1 := corners.getD j (0, 0), p2 := corners.getD ((j + 1) % 4) (0, 0),
            locked := true } }
    else r
  let (ls, i) := stMap (LineLow.assign ctx) r.lines i
  ({ r with lines := ls }, i)

/-- `RectangleObj.set_bottom_left(x, y, angle, width, height)`. -/
def RectangleObj.set_bottom_left (ctx : Ctx) (r : RectangleObj)
    (x y angle width height : ℚ) : RectangleObj :=
  let offset_x := width / 2
  let offset_y := height / 2
  let rotated_cx := x + offset_x * ctx.cosd angle - offset_y * ctx.sind angle
  let rotated_cy := y + offset_x * ctx.sind angle + offset_y * ctx.cosd angle
  { r with width := width, height := height, angle := angle,
           center := (rotated_cx, rotated_cy), locked := true }

/-- `RectangleObj.get_bbox` (union of the child lines' boxes; parametric
fallback when there are no lines). -/
def RectangleObj.get_bbox (r : RectangleObj) : BBox :=
  match r.lines.map LineLow.get_bbox with
  | [] => { min_x := r.center.1 - r.width / 2, min_y := r.center.2 - r.height / 2,
            max_x := r.center.1 + r.width / 2, max_y := r.center.2 + r.height / 2 }
  | b :: bs => bboxUnion b bs

/-- `TriangleObj` (3 preallocated `LineLow` children). -/
structure TriangleObj where
  vertices : List Pt
  locked : Bool
  lines : List LineLow
deriving DecidableEq

/-- `TriangleObj.__init__(vertices)`. -/
def TriangleObj.init (vertices : Option (List Pt)) : TriangleObj :=
  let base : TriangleObj :=
    match vertices with
    | some vs =>
      if vs.length = 3 then { vertices := vs, locked := true, lines := [] }
      else { vertices := [(0, 0), (0, 0), (0, 0)], locked := false, lines := [] }
    | none => { vertices := [(0, 0), (0, 0), (0, 0)], locked := false, lines := [] }
  { base with lines := List.replicate 3 (LineLow.init none none) }

/-- `TriangleObj.assign_geometry`. -/
def TriangleObj.assign (ctx : Ctx) (t : TriangleObj) (i : ℕ) :
    TriangleObj × ℕ :=
  let (t, i) :=
    if t.locked then (t, i)
    else
      let (x1, i) := uniform ctx i 20 80
      let (y1, i) := uniform ctx i 20 80
      let (dx2, i) := uniform ctx i 10 30
      let (dy2, i) := uniform ctx i (-20) 20
      let (dx3, i) := uniform ctx i (-20) 20
      let (dy3, i) := uniform ctx i 10 30
      ({ t with vertices := [(x1, y1), (x1 + dx2, y1 + dy2), (x1 + dx3, y1 + dy3)] }, i)
  let t :=
    if t.lines.length = 3 then
      { t with lines := (List.range 3).map fun j =>
          { p1 := t.vertices.getD j (0, 0),
            p2 := t.vertices.getD ((j + 1) % 3) (0, 0), locked := true } }
    else t
  let (ls, i) := stMap (LineLow.assign ctx) t.lines i
  ({ t with lines := ls }, i)

/-- `TriangleObj.get_bbox` (the vertex list of a constructed triangle is
never empty; the empty case stands for the `min([])` error in the source). -/
def TriangleObj.get_bbox (t : TriangleObj) : BBox :=
  match t.vertices with
  | [] => { min_x := 0, min_y := 0, max_x := 0, max_y := 0 }
  | v :: vs =>
    { min_x := (vs.map Prod.fst).foldl min v.1,
      min_y := (vs.map Prod.snd).foldl min v.2,
      max_x := (vs.map Prod.fst).foldl max v.1,
      max_y := (vs.map Prod.snd).foldl max v.2 }

/-- `PolygonObj` (10 preallocated `LineLow` children). -/
structure PolygonObj where
  center : Pt
  sides : ℕ
  radius : ℚ
  angle : ℚ
  locked : Bool
  lines : List LineLow
deriving DecidableEq

/-- `PolygonObj.__init__(center, sides, radius, angle)`. -/
def PolygonObj.init (center : Option Pt) (sides : Option ℕ)
    (radius angle : Option ℚ) : PolygonObj :=
  let base : PolygonObj :=
    match center, sides, radius, angle with
    | some c, some s, some r, some a =>
      { center := c, sides := s, radius := r, angle := a, locked := true,
        lines := [] }
    | _, _, _, _ =>
      { center := (0, 0), sides := 3, radius := 0, angle := 0, locked := false,
        lines := [] }
  { base with lines := List.replicate 10 (LineLow.init none none) }

/-- The corner list computed by `PolygonObj.assign_geometry` and
`PolygonObj.get_bbox`: `sides` points at equal angular steps `360 / sides`
around the center (the source divides by `sides`, raising on `sides = 0`;
here `360 / 0 = 0` and the list is empty). -/
def PolygonObj.pgCorners (ctx : Ctx) (p : PolygonObj) : List Pt :=
  let angle_step : ℚ := 360 / (p.sides : ℚ)
  (List.range p.sides).map fun k =>
    (p.center.1 + p.radius * ctx.cosd (p.angle + (k : ℚ) * angle_step),
     p.center.2 + p.radius * ctx.sind (p.angle + (k : ℚ) * angle_step))

/-- The randomized-parameter step of `PolygonObj.assign_geometry`: a no-op
on locked polygons, otherwise draws center, sides, radius and angle. -/
def PolygonObj.drawParams (ctx : Ctx) (p : PolygonObj) (i : ℕ) :
    PolygonObj × ℕ :=
  if p.locked then (p, i)
  else
    let (cx, i) := uniform ctx i 30 70
    let (cy, i) := uniform ctx i 30 70
    let (sides, i) := randint ctx i 3 6
    let (radius, i) := uniform ctx i 10 20
    let (angle, i) := uniform ctx i 0 180
    ({ p with center := (cx, cy), sides := sides, radius := radius,
              angle := angle }, i)

/-- The line-derivation step of `PolygonObj.assign_geometry`: when the pool
is large enough (`len(lines) >= sides`) the first `sides` pool lines become
the edges and every remaining pool line is set to `(0,0)-(0,0)`, all
locked; otherwise the pool is left untouched. -/
def PolygonObj.deriveLines (ctx : Ctx) (p : PolygonObj) : PolygonObj :=
  let corners := PolygonObj.pgCorners ctx p
  if p.sides ≤ p.lines.length then
    { p with lines := (List.range p.lines.length).map fun j =>
        if j < p.sides then
          { p1 := corners.getD j (0, 0),
            p2 := corners.getD ((j + 1) % p.sides) (0, 0), locked := true }
        else { p1 := (0, 0), p2 := (0, 0), locked := true } }
  else p

/-- `PolygonObj.assign_geometry`: draw parameters if unlocked, derive the
pool lines, then recurse into the children. -/
def PolygonObj.assign (ctx : Ctx) (p : PolygonObj) (i : ℕ) :
    PolygonObj × ℕ :=
  let (p, i) := PolygonObj.drawParams ctx p i
  let p := PolygonObj.deriveLines ctx p
  let (ls, i) := stMap (LineLow.assign ctx) p.lines i
  ({ p with lines := ls }, i)

/-- `PolygonObj.get_bbox` (computed from the parametric corner positions,
not from the child lines). -/
def PolygonObj.get_bbox (ctx : Ctx) (p : PolygonObj) : BBox :=
  match PolygonObj.pgCorners ctx p with
  | [] => { min_x := 0, min_y := 0, max_x := 0, max_y := 0 }
  | v :: vs =>
    { min_x := (vs.map Prod.fst).foldl min v.1,
      min_y := (vs.map Prod.snd).foldl min v.2,
      max_x := (vs.map Prod.fst).foldl max v.1,
      max_y := (vs.map Prod.snd).foldl max v.2 }

/-- `ArrowObj` (3 preallocated `LineLow` children: shaft + two head strokes). -/
structure ArrowObj where
  start : Pt
  length : ℚ
  angle : ℚ
  locked : Bool
  lines : List LineLow
deriving DecidableEq

/-- `ArrowObj.__init__(start, length, angle)`. -/
def ArrowObj.init (start : Option Pt) (length angle : Option ℚ) : ArrowObj :=
  let base : ArrowObj :=
    match start, length, angle with
    | some s, some l, some a =>
      { start := s, length := l, angle := a, locked := true, lines := [] }
    | _, _, _ =>
      { start := (0, 0), length := 0, angle := 0, locked := false, lines := [] }
  { base with lines := List.replicate 3 (LineLow.init none none) }

/-- `ArrowObj.assign_geometry`. -/
def ArrowObj.assign (ctx : Ctx) (a : ArrowObj) (i : ℕ) : ArrowObj × ℕ :=
  let (a, i) :=
    if a.locked then (a, i)
    else
      let (sx, i) := uniform ctx i 20 30
      let (sy, i) := uniform ctx i 20 30
      let (len, i) := uniform ctx i 20 40
      let (ang, i) := uniform ctx i 0 180
      ({ a with start := (sx, sy), length := len, angle := ang }, i)
  let x1 := a.start.1
  let y1 := a.start.2
  let x2 := x1 + a.length * ctx.cosd a.angle
  let y2 := y1 + a.length * ctx.sind a.angle
  let a :=
    if a.lines.length = 3 then
      let head_size := a.length * (0.2 : ℚ)
      let arrow_angle : ℚ := 30
      let lx := x2 + head_size * ctx.cosd (a.angle + 180 - arrow_angle)
      let ly := y2 + head_size * ctx.sind (a.angle + 180 - arrow_angle)
      let rx := x2 + head_size * ctx.cosd (a.angle + 180 + arrow_angle)
      let ry := y2 + head_size * ctx.sind (a.angle + 180 + arrow_angle)
      { a with lines := [
          { p1 := (x1, y1), p2 := (x2, y2), locked := true },
          { p1 := (x2, y2), p2 := (lx, ly), locked := true },
          { p1 := (x2, y2), p2 := (rx, ry), locked := true }] }
    else a
  let (ls, i) := stMap (LineLow.assign ctx) a.lines i
  ({ a with lines := ls }, i)

/-- `ArrowObj.get_bbox` (union of child line boxes; start/length fallback). -/
def ArrowObj.get_bbox (a : ArrowObj) : BBox :=
  match a.lines.map LineLow.get_bbox with
  | [] => { min_x := a.start.1, min_y := a.start.2,
            max_x := a.start.1 + a.length, max_y := a.start.2 + a.length }
  | b :: bs => bboxUnion b bs

/-- `is_arrow_pointing_direction(arrow, target_direction, tol=5)`: the
arrow's `angle` attribute is within `tol` (wrap-around difference) of the
target direction's canonical angle. -/
def is_arrow_pointing_direction (arrow : ArrowObj) (target_direction : Direction)
    (tol : ℚ := 5) : Bool :=
  decide (angle_difference arrow.angle (direction_angles target_direction) ≤ tol)

/-- `are_lines_parallel(line1, line2, tol=5)`. -/
def are_lines_parallel (ctx : Ctx) (line1 line2 : LineLow) (tol : ℚ := 5) : Bool :=
  let a1 := (get_line_length_and_angle ctx line1.p1 line1.p2).2
  let a2 := (get_line_length_and_angle ctx line2.p1 line2.p2).2
  decide (angle_difference a1 a2 ≤ tol)

/-- `are_lines_perpendicular(line1, line2, tol=5)`. -/
def are_lines_perpendicular (ctx : Ctx) (line1 line2 : LineLow) (tol : ℚ := 5) : Bool :=
  let a1 := (get_line_length_and_angle ctx line1.p1 line1.p2).2
  let a2 := (get_line_length_and_angle ctx line2.p1 line2.p2).2
  decide (|angle_difference a1 a2 - 90| ≤ tol)

/-- `BarsObj` (`num_bars` preallocated `RectangleObj` children; in the
source `bars_list` and `sub_references` alias the same objects). -/
structure BarsObj where
  num_bars : ℕ
  angle : ℚ
  min_width : ℚ
  max_width : ℚ
  spacing : ℚ
  min_height : ℚ
  max_height : ℚ
  base_position : Option Pt
  locked : Bool
  bars_list : List RectangleObj
deriving DecidableEq

/-- `BarsObj.__init__`: `num_bars` defaults by truthiness (`0` also draws),
`spacing` defaults by a `None` check; both consume the random source. -/
def BarsObj.init (ctx : Ctx) (num_bars : Option ℕ) (angle : ℚ)
    (min_width max_width : ℚ) (spacing : Option ℚ) (min_height max_height : ℚ)
    (base_position : Option Pt) (i : ℕ) : BarsObj × ℕ :=
  let (nb, i) :=
    match num_bars with
    | some n => if n = 0 then randint ctx i 2 5 else (n, i)
    | none => randint ctx i 2 5
  let (sp, i) :=
    match spacing with
    | some s => (s, i)
    | none => uniform ctx i 5 10
  ({ num_bars := nb, angle := angle, min_width := min_width,
     max_width := max_width, spacing := sp, min_height := min_height,
     max_height := max_height, base_position := base_position,
     locked := false,
     bars_list := List.replicate nb (RectangleObj.init none none none none) }, i)

/-- `BarsObj.assign_geometry`: lay the bars out along the bars' angle with
pitch `max_width + spacing`, then recurse into the (now locked) children. -/
def BarsObj.assign (ctx : Ctx) (b : BarsObj) (i : ℕ) : BarsObj × ℕ :=
  let (b, i) :=
    if b.locked then (b, i)
    else
      let (base_x, base_y, i) :=
        match b.base_position with
        | some p => (p.1, p.2, i)
        | none =>
          let (bx, i) := uniform ctx i 10 30
          let (by_, i) := uniform ctx i 50 80
          (bx, by_, i)
      let delta_x := (b.max_width + b.spacing) * ctx.cosd b.angle
      let delta_y := (b.max_width + b.spacing) * ctx.sind b.angle
      let start : List RectangleObj × ℚ × ℚ × ℕ := ([], base_x, base_y, i)
      let (rev_bars, _, _, i) := b.bars_list.foldl
        (fun st rect =>
          let (acc, cx, cy, i) := st
          let (w, i) := uniform ctx i b.min_width b.max_width
          let (h, i) := uniform ctx i b.min_height b.max_height
          let rect := { rect with width := w, height := h, angle := b.angle }
          let rect := RectangleObj.set_bottom_left ctx rect cx cy b.angle w h
          (rect :: acc, cx + delta_x, cy + delta_y, i)) start
      ({ b with bars_list := rev_bars.reverse, locked := true }, i)
  let (rs, i) := stMap (RectangleObj.assign ctx) b.bars_list i
  ({ b with bars_list := rs }, i)

/-- `BarsObj.set_bottom_left(x, y, angle)` (unlocks for re-derivation). -/
def BarsObj.set_bottom_left (b : BarsObj) (x y angle : ℚ) : BarsObj :=
  { b with base_position := some (x, y), angle := angle, locked := false }

/-- `BarsObj.get_bbox` (union over `bars_list`; `(0,0,0,0)` when empty). -/
def BarsObj.get_bbox (b : BarsObj) : BBox :=
  match b.bars_list.map RectangleObj.get_bbox with
  | [] => { min_x := 0, min_y := 0, max_x := 0, max_y := 0 }
  | x :: xs => bboxUnion x xs

/-- `AxisObj` (one axis `LineLow` child plus tick `LineLow` children). -/
structure AxisObj where
  axis_length : ℚ
  axis_angle : ℚ
  min_tick_spacing : ℚ
  max_tick_spacing : ℚ
  min_tick_length : ℚ
  max_tick_length : ℚ
  start_position : Option Pt
  line : LineLow
  ticks : List LineLow
  p1 : Pt
  p2 : Pt
  locked : Bool
deriving DecidableEq

/-- `AxisObj.__init__`. -/
def AxisObj.init (axis_length axis_angle : ℚ)
    (min_tick_spacing max_tick_spacing min_tick_length max_tick_length : ℚ)
    (start_position : Option Pt) : AxisObj :=
  { axis_length := axis_length, axis_angle := axis_angle,
    min_tick_spacing := min_tick_spacing, max_tick_spacing := max_tick_spacing,
    min_tick_length := min_tick_length, max_tick_length := max_tick_length,
    start_position := start_position, line := LineLow.init none none,
    ticks := [], p1 := (0, 0), p2 := (0, 0), locked := false }

/-- The tick-placement `while` loop of `AxisObj.assign_geometry`, bounded by
fuel (the source loop terminates whenever the drawn spacings are positive;
the fuel only truncates runs the source would not terminate on either). -/
def axisTicks (ctx : Ctx) (a : AxisObj) (x1 y1 : ℚ) :
    ℕ → ℚ → ℕ → List LineLow × ℕ
  | 0, _, i => ([], i)
  | fuel + 1, tick_start, i =>
    if tick_start < a.axis_length then
      let (spacing, i) := uniform ctx i a.min_tick_spacing a.max_tick_spacing
      if a.axis_length < tick_start + spacing then ([], i)
      else
        let ts := tick_start + spacing
        let cx := x1 + ts * ctx.cosd a.axis_angle
        let cy := y1 + ts * ctx.sind a.axis_angle
        let (tick_len, i) := uniform ctx i a.min_tick_length a.max_tick_length
        let half_t := tick_len / 2
        let rx := half_t * ctx.cosd (a.axis_angle + 90)
        let ry := half_t * ctx.sind (a.axis_angle + 90)
        let tick := LineLow.init (some (cx - rx, cy - ry)) (some (cx + rx, cy + ry))
        let (rest, iF) := axisTicks ctx a x1 y1 fuel ts i
        (tick :: rest, iF)
    else ([], i)

/-- `AxisObj.assign_geometry`. -/
def AxisObj.assign (ctx : Ctx) (a : AxisObj) (i : ℕ) : AxisObj × ℕ :=
  if a.locked then
    let (ln, i) := LineLow.assign ctx a.line i
    let (ts, i) := stMap (LineLow.assign ctx) a.ticks i
    ({ a with line := ln, ticks := ts }, i)
  else
    let (x1, y1, i) :=
      match a.start_position with
      | some p => (p.1, p.2, i)
      | none =>
        let (x1, i) := uniform ctx i 10 20
        let (y1, i) := uniform ctx i 60 80
        (x1, y1, i)
    let dx := a.axis_length * ctx.cosd a.axis_angle
    let dy := a.axis_length * ctx.sind a.axis_angle
    let p1 := (x1, y1)
    let p2 := (x1 + dx, y1 + dy)
    let (new_ticks, i) := axisTicks ctx a x1 y1 ctx.fuel 0 i
    let a := { a with p1 := p1, p2 := p2,
                      line := { a.line with p1 := p1, p2 := p2, locked := true },
                      ticks := a.ticks ++ new_ticks, locked := true }
    let (ln, i) := LineLow.assign ctx a.line i
    let (ts, i) := stMap (LineLow.assign ctx) a.ticks i
    ({ a with line := ln, ticks := ts }, i)

/-- `AxisObj.get_bbox` (from the axis endpoints only, ignoring ticks). -/
def AxisObj.get_bbox (a : AxisObj) : BBox :=
  { min_x := min a.p1.1 a.p2.1, min_y := min a.p1.2 a.p2.2,
    max_x := max a.p1.1 a.p2.1, max_y := max a.p1.2 a.p2.2 }

/-- `BarGraphObj` (one `BarsObj` child, an x `AxisObj` and optionally a y
`AxisObj`). -/
structure BarGraphObj where
  base_position : Pt
  axis_length : ℚ
  bars_num : ℕ
  bars_angle : ℚ
  with_y_axis : Bool
  axis_margin : ℚ
  locked : Bool
  bars_obj : BarsObj
  axis_obj_x : AxisObj
  axis_obj_y : Option AxisObj
deriving DecidableEq

/-- `BarGraphObj.__init__` (draws defaults for absent arguments, then
constructs the `BarsObj` — whose own init may draw a spacing — and the
axis objects anchored at `base_position` offset by `axis_margin`). -/
def BarGraphObj.init (ctx : Ctx) (base_position : Option Pt)
    (axis_length : Option ℚ) (bars_num : Option ℕ) (bars_angle : Option ℚ)
    (with_y_axis : Bool) (axis_margin : ℚ) (i : ℕ) : BarGraphObj × ℕ :=
  let (bp, i) :=
    match base_position with
    | some p => (p, i)
    | none =>
      let (bx, i) := uniform ctx i 10 30
      let (by_, i) := uniform ctx i 50 80
      ((bx, by_), i)
  let (al, i) :=
    match axis_length with
    | some l => (l, i)
    | none => uniform ctx i 40 60
  let (bn, i) :=
    match bars_num with
    | some n => (n, i)
    | none => randint ctx i 2 5
  let (ba, i) :=
    match bars_angle with
    | some a => (a, i)
    | none => uniform ctx i 0 180
  let (bars, i) := BarsObj.init ctx (some bn) ba 5 6 none 15 30 (some bp) i
  let ax_start_x := bp.1 + axis_margin * ctx.cosd (ba - 90)
  let ax_start_y := bp.2 + axis_margin * ctx.sind (ba - 90)
  let ax := AxisObj.init al ba 5 10 2 4 (some (ax_start_x, ax_start_y))
  let ay :=
    if with_y_axis then
      some (AxisObj.init al (qmod (ba + 90) 360) 5 10 2 4
              (some (ax_start_x, ax_start_y)))
    else none
  ({ base_position := bp, axis_length := al, bars_num := bn, bars_angle := ba,
     with_y_axis := with_y_axis, axis_margin := axis_margin, locked := false,
     bars_obj := bars, axis_obj_x := ax, axis_obj_y := ay }, i)

/-- `BarGraphObj.assign_geometry`: unlock and assign the axes then the bars,
lock, then the inherited recursion revisits the (now locked) children in
`sub_references` order (bars, x axis, y axis). -/
def BarGraphObj.assign (ctx : Ctx) (g : BarGraphObj) (i : ℕ) :
    BarGraphObj × ℕ :=
  if g.locked then
    let (b, i) := BarsObj.assign ctx g.bars_obj i
    let (ax, i) := AxisObj.assign ctx g.axis_obj_x i
    let (ay, i) :=
      match g.axis_obj_y with
      | some a => let (a', i) := AxisObj.assign ctx a i; (some a', i)
      | none => (none, i)
    ({ g with bars_obj := b, axis_obj_x := ax, axis_obj_y := ay }, i)
  else
    let bars0 := { g.bars_obj with locked := false }
    let ax0 := { g.axis_obj_x with locked := false }
    let ay0 := g.axis_obj_y.map fun a => { a with locked := false }
    let (ax1, i) := AxisObj.assign ctx ax0 i
    let (ay1, i) :=
      match ay0 with
      | some a => let (a', i) := AxisObj.assign ctx a i; (some a', i)
      | none => (none, i)
    let (bars1, i) := BarsObj.assign ctx bars0 i
    let (bars2, i) := BarsObj.assign ctx bars1 i
    let (ax2, i) := AxisObj.assign ctx ax1 i
    let (ay2, i) :=
      match ay1 with
      | some a => let (a', i) := AxisObj.assign ctx a i; (some a', i)
      | none => (none, i)
    ({ g with bars_obj := bars2, axis_obj_x := ax2, axis_obj_y := ay2,
              locked := true }, i)

/-- `BarGraphObj.get_bbox` (union over bars and axes). -/
def BarGraphObj.get_bbox (g : BarGraphObj) : BBox :=
  let bs := [g.bars_obj.get_bbox, g.axis_obj_x.get_bbox] ++
    (match g.axis_obj_y with
     | some a => [a.get_bbox]
     | none => [])
  match bs with
  | [] => { min_x := 0, min_y := 0, max_x := 0, max_y := 0 }
  | x :: xs => bboxUnion x xs

/-!  ## The shape sum type and its dispatched behaviours -/

/-- A root-level scene object: one of the nine `PlotObject` subclasses. -/
inductive Shape where
  | line : LineLow → Shape
  | oval : OvalLow → Shape
  | rect : RectangleObj → Shape
  | tri : TriangleObj → Shape
  | poly : PolygonObj → Shape
  | arrow : ArrowObj → Shape
  | bars : BarsObj → Shape
  | axis : AxisObj → Shape
  | bargraph : BarGraphObj → Shape
deriving DecidableEq

/-- The `ALIAS` tag of each class. -/
def Shape.alias : Shape → String
  | .line _ => "Line"
  | .oval _ => "Oval"
  | .rect _ => "Rectangle"
  | .tri _ => "Triangle"
  | .poly _ => "Polygon"
  | .arrow _ => "Arrow"
  | .bars _ => "Bars"
  | .axis _ => "Axis"
  | .bargraph _ => "BarGraph"

/-- Dispatched `assign_geometry`. -/
def Shape.assign (ctx : Ctx) : Shape → ℕ → Shape × ℕ
  | .line l, i => let (x, i') := LineLow.assign ctx l i; (.line x, i')
  | .oval o, i => let (x, i') := OvalLow.assign ctx o i; (.oval x, i')
  | .rect r, i => let (x, i') := RectangleObj.assign ctx r i; (.rect x, i')
  | .tri t, i => let (x, i') := TriangleObj.assign ctx t i; (.tri x, i')
  | .poly p, i => let (x, i') := PolygonObj.assign ctx p i; (.poly x, i')
  | .arrow a, i => let (x, i') := ArrowObj.assign ctx a i; (.arrow x, i')
  | .bars b, i => let (x, i') := BarsObj.assign ctx b i; (.bars x, i')
  | .axis a, i => let (x, i') := AxisObj.assign ctx a i; (.axis x, i')
  | .bargraph g, i => let (x, i') := BarGraphObj.assign ctx g i; (.bargraph x, i')

/-- Dispatched `get_bbox` (each class overrides the base implementation). -/
def Shape.get_bbox (ctx : Ctx) : Shape → BBox
  | .line l => l.get_bbox
  | .oval o => o.get_bbox
  | .rect r => r.get_bbox
  | .tri t => t.get_bbox
  | .poly p => PolygonObj.get_bbox ctx p
  | .arrow a => a.get_bbox
  | .bars b => b.get_bbox
  | .axis a => a.get_bbox
  | .bargraph g => g.get_bbox

/-!  ## `PlotObject.apply_transformation`

The base-class method remaps exactly the attributes named `p1`, `p2`,
`center`, `base_position` (when they are 2-tuples) and the elements of a
`vertices` attribute, then recurses into `sub_references`.  Note that
`ArrowObj.start` and `AxisObj.start_position` are point-valued but are NOT
in that attribute list, so they are left untouched. -/

def LineLow.applyT (f : Pt → Pt) (l : LineLow) : LineLow :=
  { l with p1 := f l.p1, p2 := f l.p2 }

def OvalLow.applyT (f : Pt → Pt) (o : OvalLow) : OvalLow :=
  { o with center := f o.center }

def RectangleObj.applyT (f : Pt → Pt) (r : RectangleObj) : RectangleObj :=
  { r with center := f r.center, lines := r.lines.map (LineLow.applyT f) }

def TriangleObj.applyT (f : Pt → Pt) (t : TriangleObj) : TriangleObj :=
  { t with vertices := t.vertices.map f, lines := t.lines.map (LineLow.applyT f) }

def PolygonObj.applyT (f : Pt → Pt) (p : PolygonObj) : PolygonObj :=
  { p with center := f p.center, lines := p.lines.map (LineLow.applyT f) }

def ArrowObj.applyT (f : Pt → Pt) (a : ArrowObj) : ArrowObj :=
  { a with lines := a.lines.map (LineLow.applyT f) }

def BarsObj.applyT (f : Pt → Pt) (b : BarsObj) : BarsObj :=
  { b with base_position := b.base_position.map f,
           bars_list := b.bars_list.map (RectangleObj.applyT f) }

def AxisObj.applyT (f : Pt → Pt) (a : AxisObj) : AxisObj :=
  { a with p1 := f a.p1, p2 := f a.p2, line := a.line.applyT f,
           ticks := a.ticks.map (LineLow.applyT f) }

def BarGraphObj.applyT (f : Pt → Pt) (g : BarGraphObj) : BarGraphObj :=
  { g with base_position := f g.base_position, bars_obj := g.bars_obj.applyT f,
           axis_obj_x := g.axis_obj_x.applyT f,
           axis_obj_y := g.axis_obj_y.map (AxisObj.applyT f) }

/-- Dispatched `apply_transformation`. -/
def Shape.applyT (f : Pt → Pt) : Shape → Shape
  | .line l => .line (l.applyT f)
  | .oval o => .oval (o.applyT f)
  | .rect r => .rect (r.applyT f)
  | .tri t => .tri (t.applyT f)
  | .poly p => .poly (p.applyT f)
  | .arrow a => .arrow (a.applyT f)
  | .bars b => .bars (b.applyT f)
  | .axis a => .axis (a.applyT f)
  | .bargraph g => .bargraph (g.applyT f)

/-!  ## Field collectors

These enumerate, over a whole shape tree, (a) the point-valued attributes
that `apply_transformation` remaps (`p1`, `p2`, `center`, `base_position`,
`vertices` elements), (b) the point-valued attributes it does not touch
(`ArrowObj.start`, `AxisObj.start_position`), (c) every rational scalar
attribute, and (d) every `_geometry_locked` flag. -/

def LineLow.movedPts (l : LineLow) : List Pt := [l.p1, l.p2]
def RectangleObj.movedPts (r : RectangleObj) : List Pt :=
  r.center :: r.lines.foldr (fun l acc => l.movedPts ++ acc) []
def TriangleObj.movedPts (t : TriangleObj) : List Pt :=
  t.vertices ++ t.lines.foldr (fun l acc => l.movedPts ++ acc) []
def PolygonObj.movedPts (p : PolygonObj) : List Pt :=
  p.center :: p.lines.foldr (fun l acc => l.movedPts ++ acc) []
def ArrowObj.movedPts (a : ArrowObj) : List Pt :=
  a.lines.foldr (fun l acc => l.movedPts ++ acc) []
def BarsObj.movedPts (b : BarsObj) : List Pt :=
  b.base_position.toList ++ b.bars_list.foldr (fun r acc => r.movedPts ++ acc) []
def AxisObj.movedPts (a : AxisObj) : List Pt :=
  [a.p1, a.p2] ++ a.line.movedPts ++ a.ticks.foldr (fun l acc => l.movedPts ++ acc) []
def BarGraphObj.movedPts (g : BarGraphObj) : List Pt :=
  g.base_position :: (g.bars_obj.movedPts ++ g.axis_obj_x.movedPts ++
    (match g.axis_obj_y with | some a => a.movedPts | none => []))

def Shape.movedPts : Shape → List Pt
  | .line l => l.movedPts
  | .oval o => [o.center]
  | .rect r => r.movedPts
  | .tri t => t.movedPts
  | .poly p => p.movedPts
  | .arrow a => a.movedPts
  | .bars b => b.movedPts
  | .axis a => a.movedPts
  | .bargraph g => g.movedPts

def BarsObj.fixedPts (b : BarsObj) : List Pt := []
def AxisObj.fixedPts (a : AxisObj) : List Pt := a.start_position.toList
def BarGraphObj.fixedPts (g : BarGraphObj) : List Pt :=
  g.bars_obj.fixedPts ++ g.axis_obj_x.fixedPts ++
    (match g.axis_obj_y with | some a => a.fixedPts | none => [])

def Shape.fixedPts : Shape → List Pt
  | .line _ => []
  | .oval _ => []
  | .rect _ => []
  | .tri _ => []
  | .poly _ => []
  | .arrow a => [a.start]
  | .bars b => b.fixedPts
  | .axis a => a.fixedPts
  | .bargraph g => g.fixedPts

def RectangleObj.scalars (r : RectangleObj) : List ℚ := [r.width, r.height, r.angle]
def BarsObj.scalars (b : BarsObj) : List ℚ :=
  [b.angle, b.min_width, b.max_width, b.spacing, b.min_height, b.max_height] ++
    b.bars_list.foldr (fun r acc => r.scalars ++ acc) []
def AxisObj.scalars (a : AxisObj) : List ℚ :=
  [a.axis_length, a.axis_angle, a.min_tick_spacing, a.max_tick_spacing,
   a.min_tick_length, a.max_tick_length]
def BarGraphObj.scalars (g : BarGraphObj) : List ℚ :=
  [g.axis_length, g.bars_angle, g.axis_margin] ++ g.bars_obj.scalars ++
    g.axis_obj_x.scalars ++
    (match g.axis_obj_y with | some a => a.scalars | none => [])

def Shape.scalars : Shape → List ℚ
  | .line _ => []
  | .oval o => [o.width, o.height, o.angle]
  | .rect r => r.scalars
  | .tri _ => []
  | .poly p => [p.radius, p.angle]
  | .arrow a => [a.length, a.angle]
  | .bars b => b.scalars
  | .axis a => a.scalars
  | .bargraph g => g.scalars

def RectangleObj.lockedFlags (r : RectangleObj) : List Bool :=
  r.locked :: r.lines.map LineLow.locked
def BarsObj.lockedFlags (b : BarsObj) : List Bool :=
  b.locked :: b.bars_list.foldr (fun r acc => r.lockedFlags ++ acc) []
def AxisObj.lockedFlags (a : AxisObj) : List Bool :=
  a.locked :: a.line.locked :: a.ticks.map LineLow.locked
def BarGraphObj.lockedFlags (g : BarGraphObj) : List Bool :=
  g.locked :: (g.bars_obj.lockedFlags ++ g.axis_obj_x.lockedFlags ++
    (match g.axis_obj_y with | some a => a.lockedFlags | none => []))

def Shape.lockedFlags : Shape → List Bool
  | .line l => [l.locked]
  | .oval o => [o.locked]
  | .rect r => r.lockedFlags
  | .tri t => t.locked :: t.lines.map LineLow.locked
  | .poly p => p.locked :: p.lines.map LineLow.locked
  | .arrow a => a.locked :: a.lines.map LineLow.locked
  | .bars b => b.lockedFlags
  | .axis a => a.lockedFlags
  | .bargraph g => g.lockedFlags

/-- All `LineLow` descendants of a shape, as collected by the
`gather_all_lines` traversal of `demo_question_parallel_perp_lines`
(collection order differs from the source's stack order; only the
multiset of lines matters downstream, where the angles are sorted). -/
def Shape.gather_lines : Shape → List LineLow
  | .line l => [l]
  | .oval _ => []
  | .rect r => r.lines
  | .tri t => t.lines
  | .poly p => p.lines
  | .arrow a => a.lines
  | .bars b => b.bars_list.foldr (fun r acc => r.lines ++ acc) []
  | .axis a => a.line :: a.ticks
  | .bargraph g =>
    g.bars_obj.bars_list.foldr (fun r acc => r.lines ++ acc) [] ++
      (g.axis_obj_x.line :: g.axis_obj_x.ticks) ++
      (match g.axis_obj_y with | some a => a.line :: a.ticks | none => [])

/-!  ## `adjust_scene`: canvas-fit scaling and translation -/

/-- The bounding boxes of all root shapes (`all_bboxes`). -/
def all_bboxes (ctx : Ctx) (scene : List Shape) : List BBox :=
  scene.map (Shape.get_bbox ctx)

/-- `global_min_x` over a non-empty scene (0 for the empty scene, where the
source returns before computing it). -/
def global_min_x (ctx : Ctx) (scene : List Shape) : ℚ :=
  match all_bboxes ctx scene with
  | [] => 0
  | b :: bs => (bs.map BBox.min_x).foldl min b.min_x

def global_min_y (ctx : Ctx) (scene : List Shape) : ℚ :=
  match all_bboxes ctx scene with
  | [] => 0
  | b :: bs => (bs.map BBox.min_y).foldl min b.min_y

def global_max_x (ctx : Ctx) (scene : List Shape) : ℚ :=
  match all_bboxes ctx scene with
  | [] => 0
  | b :: bs => (bs.map BBox.max_x).foldl max b.max_x

def global_max_y (ctx : Ctx) (scene : List Shape) : ℚ :=
  match all_bboxes ctx scene with
  | [] => 0
  | b :: bs => (bs.map BBox.max_y).foldl max b.max_y

/-- Canvas rectangle `(x_min, x_max, y_min, y_max)`. -/
abbrev Canvas : Type := ℚ × ℚ × ℚ × ℚ

def scene_width (ctx : Ctx) (scene : List Shape) : ℚ :=
  global_max_x ctx scene - global_min_x ctx scene

def scene_height (ctx : Ctx) (scene : List Shape) : ℚ :=
  global_max_y ctx scene - global_min_y ctx scene

/-- `scale = min(canvas_width / scene_width, canvas_height / scene_height, 1)`
(the source raises `ZeroDivisionError` for a degenerate scene; theorems
using this add `0 < scene_width` and `0 < scene_height` hypotheses). -/
def fit_scale (ctx : Ctx) (scene : List Shape) (canvas : Canvas) : ℚ :=
  let (cxmin, cxmax, cymin, cymax) := canvas
  min (min ((cxmax - cxmin) / scene_width ctx scene)
           ((cymax - cymin) / scene_height ctx scene)) 1

/-- The affine map `transform` built by `adjust_scene`. -/
def fit_transform (ctx : Ctx) (scene : List Shape) (canvas : Canvas) :
    Pt → Pt := fun pt =>
  let (cxmin, cxmax, cymin, cymax) := canvas
  let scale := fit_scale ctx scene canvas
  let desired_x_min :=
    cxmin + ((cxmax - cxmin) - scale * scene_width ctx scene) / 2
  let desired_y_min :=
    cymin + ((cymax - cymin) - scale * scene_height ctx scene) / 2
  (desired_x_min + scale * (pt.1 - global_min_x ctx scene),
   desired_y_min + scale * (pt.2 - global_min_y ctx scene))

/-- `adjust_scene(scene, canvas)` (returns the transformed scene; the
source mutates in place and returns early when the scene is empty). -/
def adjust_scene (ctx : Ctx) (scene : List Shape) (canvas : Canvas) :
    List Shape :=
  match scene with
  | [] => scene
  | _ :: _ => scene.map (Shape.applyT (fit_transform ctx scene canvas))

/-!  ## Plans, the object-type table and scene construction -/

/-- A Python kwargs dictionary for a shape constructor: every keyword any
of the nine constructors accepts, each optional. -/
structure KwArgs where
  p1 : Option Pt := none
  p2 : Option Pt := none
  center : Option Pt := none
  width : Option ℚ := none
  height : Option ℚ := none
  angle : Option ℚ := none
  vertices : Option (List Pt) := none
  start : Option Pt := none
  length : Option ℚ := none
  sides : Option ℕ := none
  radius : Option ℚ := none
  num_bars : Option ℕ := none
  min_width : Option ℚ := none
  max_width : Option ℚ := none
  spacing : Option ℚ := none
  min_height : Option ℚ := none
  max_height : Option ℚ := none
  base_position : Option Pt := none
  axis_length : Option ℚ := none
  axis_angle : Option ℚ := none
  min_tick_spacing : Option ℚ := none
  max_tick_spacing : Option ℚ := none
  min_tick_length : Option ℚ := none
  max_tick_length : Option ℚ := none
  start_position : Option Pt := none
  bars_num : Option ℕ := none
  bars_angle : Option ℚ := none
  with_y_axis : Option Bool := none
  axis_margin : Option ℚ := none
deriving DecidableEq

/-- A plan entry value: either an instance count or a list of constructor
kwargs dictionaries (`build_scene_from_plan` accepts both forms). -/
inductive PlanSpec where
  | count : ℕ → PlanSpec
  | params : List KwArgs → PlanSpec
deriving DecidableEq

/-- A plan: an ordered mapping from alias to spec (Python dict insertion
order). -/
abbrev Plan : Type := List (String × PlanSpec)

/-- The classes registered in `OBJECT_TYPES`. -/
inductive ClassTag where
  | line | oval | rect | bars | axis | bargraph | tri | poly | arrow
deriving DecidableEq

/-- `OBJECT_TYPES.get(alias, None)`. -/
def OBJECT_TYPES_get : String → Option ClassTag
  | "Line" => some .line
  | "Oval" => some .oval
  | "Rectangle" => some .rect
  | "Bars" => some .bars
  | "Axis" => some .axis
  | "BarGraph" => some .bargraph
  | "Triangle" => some .tri
  | "Polygon" => some .poly
  | "Arrow" => some .arrow
  | _ => none

/-- `list(OBJECT_TYPES.keys())` in dict insertion order. -/
def OBJECT_TYPES_keys : List String :=
  ["Line", "Oval", "Rectangle", "Bars", "Axis", "BarGraph", "Triangle",
   "Polygon", "Arrow"]

/-- Default construction `cls_()` for each registered class. -/
def ClassTag.new (ctx : Ctx) : ClassTag → ℕ → Shape × ℕ
  | .line, i => (.line (LineLow.init none none), i)
  | .oval, i => (.oval (OvalLow.init none none none none), i)
  | .rect, i => (.rect (RectangleObj.init none none none none), i)
  | .bars, i =>
    let (b, i') := BarsObj.init ctx none 30 5 6 none 15 30 none i
    (.bars b, i')
  | .axis, i => (.axis (AxisObj.init 50 30 5 10 2 4 none), i)
  | .bargraph, i =>
    let (g, i') := BarGraphObj.init ctx none none none (some 0) true 0 i
    (.bargraph g, i')
  | .tri, i => (.tri (TriangleObj.init none), i)
  | .poly, i => (.poly (PolygonObj.init none none none none), i)
  | .arrow, i => (.arrow (ArrowObj.init none none none), i)

/-- Construction `cls_(**params)` for each registered class (a kwarg the
class does not accept would raise `TypeError` in the source; here the
class simply reads the kwargs it knows). -/
def ClassTag.ofKwargs (ctx : Ctx) : ClassTag → KwArgs → ℕ → Shape × ℕ
  | .line, k, i => (.line (LineLow.init k.p1 k.p2), i)
  | .oval, k, i => (.oval (OvalLow.init k.center k.width k.height k.angle), i)
  | .rect, k, i => (.rect (RectangleObj.init k.center k.width k.height k.angle), i)
  | .bars, k, i =>
    let (b, i') := BarsObj.init ctx k.num_bars (k.angle.getD 30)
      (k.min_width.getD 5) (k.max_width.getD 6) k.spacing
      (k.min_height.getD 15) (k.max_height.getD 30) k.base_position i
    (.bars b, i')
  | .axis, k, i =>
    (.axis (AxisObj.init (k.axis_length.getD 50) (k.axis_angle.getD 30)
      (k.min_tick_spacing.getD 5) (k.max_tick_spacing.getD 10)
      (k.min_tick_length.getD 2) (k.max_tick_length.getD 4) k.start_position), i)
  | .bargraph, k, i =>
    let (g, i') := BarGraphObj.init ctx k.base_position k.axis_length
      k.bars_num (some (k.bars_angle.getD 0)) (k.with_y_axis.getD true)
      (k.axis_margin.getD 0) i
    (.bargraph g, i')
  | .tri, k, i => (.tri (TriangleObj.init k.vertices), i)
  | .poly, k, i => (.poly (PolygonObj.init k.center k.sides k.radius k.angle), i)
  | .arrow, k, i => (.arrow (ArrowObj.init k.start k.length k.angle), i)

/-- `build_scene_from_plan(high_level_objects)`: an alias absent from
`OBJECT_TYPES` is skipped (`continue`), never reported. -/
def build_scene_from_plan (ctx : Ctx) : Plan → ℕ → List Shape × ℕ
  | [], i => ([], i)
  | (aliasName, spec) :: rest, i =>
    match OBJECT_TYPES_get aliasName with
    | none => build_scene_from_plan ctx rest i
    | some tag =>
      match spec with
      | .count n =>
        let (objs, i') := stRepeat (tag.new ctx) n i
        let (others, i'') := build_scene_from_plan ctx rest i'
        (objs ++ others, i'')
      | .params ps =>
        let (objs, i') := stMap (fun k j => tag.ofKwargs ctx k j) ps i
        let (others, i'') := build_scene_from_plan ctx rest i'
        (objs ++ others, i'')

/-- The distractor-padding `while` loop of `create_scene`; the fuel is the
exact deficit `min_total - total`, matching the loop that adds one object
per iteration while the count is below the minimum and `available_types`
is non-empty. -/
def padLoop (ctx : Ctx) (available : List String) :
    ℕ → List Shape → ℕ → List Shape × ℕ
  | 0, scene, i => (scene, i)
  | n + 1, scene, i =>
    if available = [] then (scene, i)
    else
      let (extra_type, i) := choice ctx i available "Line"
      match OBJECT_TYPES_get extra_type with
      | some tag =>
        let (s, i') := tag.new ctx i
        padLoop ctx available n (scene ++ [s]) i'
      | none => (scene, i)

/-- `create_scene(plan, avoid_types, canvas, allow_partial)`: build from the
plan, pad with random-kind distractors up to the minimum (never of an
avoided kind), trim from the end down to the maximum, assign geometry,
then (unless partial) canvas-fit.  `perform_skills` only prints and is not
modelled. -/
def create_scene (ctx : Ctx) (plan : Plan) (avoid_types : List String)
    (canvas : Canvas) ( allow_partial : Bool) (i : ℕ) : List Shape × ℕ :=
  let (scene, i) := build_scene_from_plan ctx plan i
  let total := scene.length
  let min_total : ℕ := 3
  let max_total : ℕ := 6
  let available_types := OBJECT_TYPES_keys.filter (fun t => decide (t ∉ avoid_types))
  let (scene, i) := padLoop ctx available_types (min_total - total) scene i
  let scene := scene.take max_total
  let (scene, i) := stMap (Shape.assign ctx) scene i
  let scene := if allow_partial then scene else adjust_scene ctx scene canvas
  (scene, i)

/-!  ## The constrained-generation demos

The demos end in `display_and_save_scene(scene, outdir, question, answer,
canvas)` (excluded rendering/serialization); the observable output is the
record of those arguments. -/

/-- What a demo hands to the excluded renderer/serializer: there is no
field other than the scene, the question text and the requested answer. -/
structure DemoOut where
  scene : List Shape
  question : String
  answer : Bool
deriving DecidableEq

/-- `compute_endpoint(p, angle, length)` from
`demo_question_parallel_perp_lines`. -/
def compute_endpoint (ctx : Ctx) (p : Pt) (angle length : ℚ) : Pt :=
  (p.1 + length * ctx.cosd angle, p.2 + length * ctx.sind angle)

/-- `generate_angles(base, valid)` from the same demo. -/
def generate_angles (ctx : Ctx) (i : ℕ) (base : ℚ)
    (valid test_parallel : Bool) (epsilon : ℚ) : (ℚ × ℚ) × ℕ :=
  if valid then
    let (offset, i) := uniform ctx i (-(epsilon / 2)) (epsilon / 2)
    ((qmod base 360,
      qmod (base + (if test_parallel then 0 else 90) + offset) 360), i)
  else
    let choices : List ℚ := if test_parallel then [10, 20, 30, 40] else [20, 40, 120]
    let (c, i) := choice ctx i choices 0
    ((qmod base 360, qmod (base + c) 360), i)

/-- `bisect.bisect_left` on a sorted rational list. -/
def bisect_left (l : List ℚ) (x : ℚ) : ℕ :=
  (l.takeWhile (fun a => decide (a < x))).length

/-- The parallel-relation scan over the sorted angle list: any consecutive
difference at most `eps`, or the wrap-around difference at most `eps`. -/
def parallelCheck (angles : List ℚ) (eps : ℚ) : Bool :=
  let consec := (List.range (angles.length - 1)).any fun k =>
    decide (|angles.getD (k + 1) 0 - angles.getD k 0| ≤ eps)
  consec || decide (360 - angles.getLastD 0 + angles.headD 0 ≤ eps)

/-- The perpendicular-relation scan over the sorted angle list
(binary-search based, with the wrap-around case). -/
def perpCheck (angles : List ℚ) (eps : ℚ) : Bool :=
  angles.any fun angle =>
    let target := angle + 90
    if 360 < target then
      let target' := target - 360
      let idx1 := bisect_left angles (target' - eps)
      ((angles.drop idx1).any fun a => decide (|a - target'| ≤ eps)) ||
        (angles.any fun a =>
          decide (a < target') && decide (|a + 360 - (angle + 90)| ≤ eps))
    else
      let idx := bisect_left angles (target - eps)
      decide (idx < angles.length) && decide (angles.getD idx 0 ≤ target + eps)

/-- One iteration of the retry loop of
`demo_question_parallel_perp_lines`: builds a two-line plan, creates the
scene, gathers all lines, and reports whether the loop would `break`
(too few lines is a `continue`, i.e. no break). -/
def ppAttempt (ctx : Ctx) (answer test_parallel : Bool) (width height : ℚ)
    (canvas : Canvas) (i : ℕ) : (List Shape × Bool) × ℕ :=
  let epsilon : ℚ := 4
  let margin : ℚ := 5
  let (base, i) := uniform ctx i 0 360
  let (angles12, i) := generate_angles ctx i base answer test_parallel epsilon
  let (p1x, i) := uniform ctx i margin (width - margin)
  let (p1y, i) := uniform ctx i margin (height - margin)
  let (p2x, i) := uniform ctx i margin (width - margin)
  let (p2y, i) := uniform ctx i margin (height - margin)
  let (len1, i) := uniform ctx i 10 (width * (0.6 : ℚ))
  let (len2, i) := uniform ctx i 10 (width * (0.6 : ℚ))
  let p1 : Pt := (p1x, p1y)
  let p2 : Pt := (p2x, p2y)
  let plan : Plan := [("Line", PlanSpec.params [
    { p1 := some p1, p2 := some (compute_endpoint ctx p1 angles12.1 len1) },
    { p1 := some p2, p2 := some (compute_endpoint ctx p2 angles12.2 len2) }])]
  let (scene, i) := create_scene ctx plan [] canvas false i
  let all_lines := scene.foldr (fun s acc => s.gather_lines ++ acc) []
  if all_lines.length < 2 then ((scene, false), i)
  else
    let angles := (all_lines.map fun ln =>
      (get_line_length_and_angle ctx ln.p1 ln.p2).2).mergeSort
        (fun a b => decide (a ≤ b))
    let relation_found :=
      if test_parallel then parallelCheck angles epsilon
      else perpCheck angles epsilon
    ((scene, (answer && relation_found) || (!answer && !relation_found)), i)

/-- The bounded retry loop (`for _ in range(MAX_RETRY)`): breaks on a
matching candidate, otherwise keeps the last-generated scene. -/
def ppLoop (ctx : Ctx) (answer test_parallel : Bool) (width height : ℚ)
    (canvas : Canvas) : ℕ → ℕ → List Shape → List Shape × ℕ
  | 0, i, scene => (scene, i)
  | n + 1, i, _ =>
    let (si, i') := ppAttempt ctx answer test_parallel width height canvas i
    if si.2 then (si.1, i') else ppLoop ctx answer test_parallel width height canvas n i' si.1

/-- Evaluates the whole retry chain once and reports whether no iteration
would break (the search is exhausted). -/
def ppNoBreak (ctx : Ctx) (answer test_parallel : Bool) (width height : ℚ)
    (canvas : Canvas) : ℕ → ℕ → Bool
  | 0, _ => true
  | n + 1, i =>
    let (si, i') := ppAttempt ctx answer test_parallel width height canvas i
    !si.2 && ppNoBreak ctx answer test_parallel width height canvas n i'

/-- The scene generated by the final iteration of the chain (what the
source's `scene` variable holds when the loop falls through). -/
def ppLastScene (ctx : Ctx) (answer test_parallel : Bool) (width height : ℚ)
    (canvas : Canvas) : ℕ → ℕ → List Shape → List Shape
  | 0, _, scene => scene
  | n + 1, i, _ =>
    let (si, i') := ppAttempt ctx answer test_parallel width height canvas i
    ppLastScene ctx answer test_parallel width height canvas n i' si.1

/-- `demo_question_parallel_perp_lines(answer, canvas_size)`: the observable
output record handed to `display_and_save_scene`. -/
def demo_question_parallel_perp_lines (ctx : Ctx) (answer : Bool)
    (canvas_size : ℚ × ℚ) (i : ℕ) : DemoOut × ℕ :=
  let (width, height) := canvas_size
  let canvas : Canvas := (0, width, 0, height)
  let MAX_RETRY : ℕ := 50
  let (test_parallel, i) := choice ctx i [true, false] true
  let relation_text := if test_parallel then "parallel" else "perpendicular"
  let question_text := "Are there any " ++ relation_text ++ " lines in the image?"
  let runLoop := fun (j : ℕ) =>
    let (scene, j') := ppLoop ctx answer test_parallel width height canvas MAX_RETRY j []
    ({ scene := scene, question := question_text, answer := answer }, j')
  if answer then
    let (r, i) := uniform ctx i 0 1
    if r < (0.02 : ℚ) then
      let (scene, i) := create_scene ctx [("Rectangle", .count 1)] [] canvas false i
      ({ scene := scene, question := question_text, answer := answer }, i)
    else if r < (0.04 : ℚ) then
      let (scene, i) := create_scene ctx [("Bars", .count 1)] [] canvas false i
      ({ scene := scene, question := question_text, answer := answer }, i)
    else if r < (0.06 : ℚ) then
      let (scene, i) := create_scene ctx [("Axis", .count 1)] [] canvas false i
      ({ scene := scene, question := question_text, answer := answer }, i)
    else runLoop i
  else runLoop i

/-- The `direction_angles` dictionary local to
`demo_question_arrow_direction` (note: inverted relative to
`is_arrow_pointing_direction` because the display y-axis is inverted):
`{"upward": 270, "downward": 90, "leftward": 180, "rightward": 0}`. -/
def demo_direction_angles (d : String) : ℚ :=
  if d = "upward" then 270
  else if d = "downward" then 90
  else if d = "leftward" then 180
  else 0

/-- The exception message raised by `demo_question_arrow_direction` when the
retry bound is exhausted with a violating arrow present. -/
def ARROW_CHECK_FAILED : String :=
  "Check failed: An arrow pointing the target direction was found when answer should be false."

/-- Result of one `answer=False` iteration of the arrow-direction demo:
either the loop would `break` with this scene, or a violating arrow was
found (the loop retries, or raises on the last attempt). -/
inductive ArrowStep where
  | accept : List Shape → ArrowStep
  | reject : ArrowStep
deriving DecidableEq

/-- One `answer=False` iteration of `demo_question_arrow_direction`:
with probability `NO_ARROW_PROB_FALSE` an empty plan, otherwise one arrow
pointing a wrong direction; the created scene is checked for any arrow
within `tol_adjust` of the target direction's angle. -/
def arrowAttempt (ctx : Ctx) (width height : ℚ) (canvas : Canvas)
    (direction : String) (i : ℕ) : ArrowStep × ℕ :=
  let tol_adjust : ℚ := 30
  let NO_ARROW_PROB_FALSE : ℚ := 0.15
  let (r, i) := uniform ctx i 0 1
  let (plan, i) :=
    if r < NO_ARROW_PROB_FALSE then (([] : Plan), i)
    else
      let wrong_directions :=
        ["upward", "downward", "leftward", "rightward"].filter
          (fun d => decide (d ≠ direction))
      let (wrong_direction, i) := choice ctx i wrong_directions "upward"
      let base_angle := demo_direction_angles wrong_direction
      let (u, i) := uniform ctx i (-tol_adjust) tol_adjust
      let angle := base_angle + u
      let (length, i) := uniform ctx i 20 (min width height / (1.5 : ℚ))
      let margin : ℚ := 5
      let (start_x, i) := uniform ctx i margin (width - margin)
      let (start_y, i) := uniform ctx i margin (height - margin)
      (([("Arrow", PlanSpec.params [
          { angle := some angle, length := some length,
            start := some (start_x, start_y) }])] : Plan), i)
  let (scene, i) := create_scene ctx plan [] canvas false i
  let arrow_objs := scene.filterMap fun s =>
    match s with
    | .arrow a => some a
    | _ => none
  if arrow_objs = [] then (.accept scene, i)
  else
    let violation := arrow_objs.any fun a =>
      decide (|a.angle - demo_direction_angles direction| < tol_adjust)
    if violation then (.reject, i) else (.accept scene, i)

/-- The `answer=False` retry loop (`while attempt < MAX_RETRY`): a
violating scene on the final attempt raises; the zero-remaining case is
unreachable for a positive retry bound. -/
def arrowLoopFalse (ctx : Ctx) (width height : ℚ) (canvas : Canvas)
    (direction : String) : ℕ → ℕ → Except String (List Shape × ℕ)
  | 0, i => .ok ([], i)
  | rem + 1, i =>
    match arrowAttempt ctx width height canvas direction i with
    | (.accept scene, i') => .ok (scene, i')
    | (.reject, i') =>
      if rem = 0 then .error ARROW_CHECK_FAILED
      else arrowLoopFalse ctx width height canvas direction rem i'

/-- Evaluates the `answer=False` chain once and reports whether every
iteration finds a violating arrow (so the loop retries every time). -/
def arrowAllViolate (ctx : Ctx) (width height : ℚ) (canvas : Canvas)
    (direction : String) : ℕ → ℕ → Bool
  | 0, _ => true
  | rem + 1, i =>
    match arrowAttempt ctx width height canvas direction i with
    | (.accept _, _) => false
    | (.reject, i') => arrowAllViolate ctx width height canvas direction rem i'

/-- The `answer=True` branch of the loop body (the loop always breaks in
its first iteration when the answer is `True`). -/
def arrowAttemptTrue (ctx : Ctx) (width height : ℚ) (canvas : Canvas)
    (direction : String) (i : ℕ) : List Shape × ℕ :=
  let tol_adjust : ℚ := 30
  let base_angle := demo_direction_angles direction
  let (u, i) := uniform ctx i (-tol_adjust) tol_adjust
  let angle := base_angle + u
  let (length, i) := uniform ctx i 20 (min width height / (1.5 : ℚ))
  let margin : ℚ := 5
  let (start_x, i) := uniform ctx i margin (width - margin)
  let (start_y, i) := uniform ctx i margin (height - margin)
  create_scene ctx [("Arrow", PlanSpec.params [
    { angle := some angle, length := some length,
      start := some (start_x, start_y) }])] [] canvas false i

/-- `demo_question_arrow_direction(answer, canvas_size)`: either the output
record handed to `display_and_save_scene`, or the raised exception. -/
def demo_question_arrow_direction (ctx : Ctx) (answer : Bool)
    (canvas_size : ℚ × ℚ) (i : ℕ) : Except String (DemoOut × ℕ) :=
  let MAX_RETRY : ℕ := 5
  let (width, height) := canvas_size
  let canvas : Canvas := (0, width, 0, height)
  let (direction, i) :=
    choice ctx i ["upward", "downward", "leftward", "rightward"] "upward"
  let question_text := "Is there an arrow pointing " ++ direction ++ "?"
  if answer then
    let (scene, i) := arrowAttemptTrue ctx width height canvas direction i
    .ok ({ scene := scene, question := question_text, answer := answer }, i)
  else
    match arrowLoopFalse ctx width height canvas direction MAX_RETRY i with
    | .error e => .error e
    | .ok (scene, i) =>
      .ok ({ scene := scene, question := question_text, answer := answer }, i)


/-!  ## Concrete contexts and instances for counterexamples and witnesses -/

/-- Constant-stream context: every rational draw is `1/2`, every natural
draw is `0`, both trig oracles are the constant `1/2`, `atan2d` is `0`. -/
def ctxH : Ctx :=
  { rngQ := fun _ => 1/2, rngN := fun _ => 0, cosd := fun _ => 1/2,
    sind := fun _ => 1/2, atan2d := fun _ _ => 0, hypotQ := fun _ _ => 0,
    fuel := 0 }

/-- Like `ctxH` but every natural draw is `1` (so distractor padding picks
`"Oval"` and two-way choices pick the second option). -/
def ctxPP : Ctx := { ctxH with rngN := fun _ => 1 }

/-- Rational draws for the arrow-direction exhaustion run, by offset inside
one 16-draw attempt: `random.random()`, wrong-direction offset, length,
start x/y for the planned arrow, then start/length/angle for each of the
two arrow distractors (the second distractor's angle 100 also violates). -/
def arrowQs : List ℚ :=
  [1/5, 0, 0, 30, 50, 50, 0, 0, 25, 25, 30, 90, 25, 25, 30, 100]

/-- Context driving `demo_question_arrow_direction(answer=False)` into
retry exhaustion: the direction choice is `"downward"` (target angle 90),
every attempt pads the scene with two `"Arrow"` distractors, and the first
distractor's drawn angle is 90 — a violation on every attempt. -/
def ctxArrow : Ctx :=
  { rngQ := fun k => if k = 0 then 0 else arrowQs.getD ((k - 1) % 16) 0,
    rngN := fun k =>
      if k = 0 then 1 else if (k - 1) % 16 = 1 then 0 else 8,
    cosd := fun _ => 1/2, sind := fun _ => 1/2, atan2d := fun _ _ => 0,
    hypotQ := fun _ _ => 0, fuel := 0 }

/-- The oval of the canvas-fit counterexample: explicitly constructed with
center `(0,0)` and width = height = 200, i.e. pre-fit box `(-100..100)²`. -/
def oval200 : OvalLow := OvalLow.init (some (0, 0)) (some 200) (some 200) (some 0)

/-- A polygon explicitly constructed with 11 sides — more than the
10-line pool. -/
def poly11 : PolygonObj := PolygonObj.init (some (0, 0)) (some 11) (some 5) (some 0)

/-- The post-assignment line-pool property of a polygon claimed by the
spec: exactly 10 pool lines, the first `sides` of them holding the edges
(adjacent parametric corners), every remaining one the locked degenerate
segment `(0,0)-(0,0)`. -/
def polygonPoolProperty (ctx : Ctx) (p : PolygonObj) : Prop :=
  p.lines.length = 10 ∧
  (∀ j, j < p.sides →
    p.lines.getD j (LineLow.init none none) =
      { p1 := (PolygonObj.pgCorners ctx p).getD j (0, 0),
        p2 := (PolygonObj.pgCorners ctx p).getD ((j + 1) % p.sides) (0, 0),
        locked := true }) ∧
  (∀ j, j < p.lines.length → p.sides ≤ j →
    p.lines.getD j (LineLow.init none none) =
      { p1 := (0, 0), p2 := (0, 0), locked := true })

/-!  # Helper lemmas -/

theorem qmod_nonneg (x : ℚ) {m : ℚ} (hm : 0 < m) : 0 ≤ qmod x m := by
  have h : ((⌊x / m⌋ : ℤ) : ℚ) ≤ x / m := Int.floor_le (x / m)
  have h2 : ((⌊x / m⌋ : ℤ) : ℚ) * m ≤ x / m * m :=
    mul_le_mul_of_nonneg_right h hm.le
  rw [div_mul_cancel₀ _ hm.ne'] at h2
  unfold qmod
  nlinarith [h2]

theorem qmod_lt (x : ℚ) {m : ℚ} (hm : 0 < m) : qmod x m < m := by
  have h : x / m < ((⌊x / m⌋ : ℤ) : ℚ) + 1 := Int.lt_floor_add_one (x / m)
  have h2 : x / m * m < (((⌊x / m⌋ : ℤ) : ℚ) + 1) * m :=
    mul_lt_mul_of_pos_right h hm
  rw [div_mul_cancel₀ _ hm.ne'] at h2
  unfold qmod
  nlinarith [h2]

theorem ad_le_abs_aux (d : ℚ) (j : ℤ) :
    (if 180 < qmod d 360 then 360 - qmod d 360 else qmod d 360) ≤
      |d + 360 * (j : ℚ)| := by
  have hm0 : 0 ≤ qmod d 360 := qmod_nonneg d (by norm_num)
  have hm360 : qmod d 360 < 360 := qmod_lt d (by norm_num)
  have hdm : d + 360 * (j : ℚ) =
      qmod d 360 + 360 * ((⌊d / 360⌋ + j : ℤ) : ℚ) := by
    push_cast
    unfold qmod
    ring
  rw [hdm]
  rcases le_or_lt 0 (⌊d / 360⌋ + j) with hJ0 | hJ0
  · have hJQ : (0 : ℚ) ≤ ((⌊d / 360⌋ + j : ℤ) : ℚ) := by exact_mod_cast hJ0
    rw [abs_of_nonneg (by nlinarith)]
    split_ifs with h <;> nlinarith
  · have hJ1 : (⌊d / 360⌋ + j : ℤ) ≤ -1 := by omega
    have hJQ : ((⌊d / 360⌋ + j : ℤ) : ℚ) ≤ -1 := by exact_mod_cast hJ1
    rw [abs_of_neg (by nlinarith)]
    split_ifs with h <;> nlinarith

theorem ad_eq_abs_aux (d : ℚ) :
    ∃ j : ℤ, (if 180 < qmod d 360 then 360 - qmod d 360 else qmod d 360) =
      |d + 360 * (j : ℚ)| := by
  have hm0 : 0 ≤ qmod d 360 := qmod_nonneg d (by norm_num)
  have hm360 : qmod d 360 < 360 := qmod_lt d (by norm_num)
  split_ifs with h
  · refine ⟨-(⌊d / 360⌋ + 1), ?_⟩
    have he : d + 360 * ((-(⌊d / 360⌋ + 1) : ℤ) : ℚ) = qmod d 360 - 360 := by
      push_cast
      unfold qmod
      ring
    rw [he, abs_of_neg (by linarith)]
    ring
  · refine ⟨-⌊d / 360⌋, ?_⟩
    have he : d + 360 * ((-⌊d / 360⌋ : ℤ) : ℚ) = qmod d 360 := by
      push_cast
      unfold qmod
      ring
    rw [he, abs_of_nonneg hm0]

/-!  # Claim theorems -/

/-- Claim C8: `angle_difference(a, b)` is the smallest absolute angular
difference between `a` and `b`: it lies in `[0, 180]`, is symmetric,
vanishes on equal angles, and — handling wrap-around across 0°/360° — is a
lower bound of, and is attained among, the values `|a - b + 360k|` over
all integers `k`. -/
theorem angle_difference_spec (a b : ℚ) :
    0 ≤ angle_difference a b ∧ angle_difference a b ≤ 180 ∧
    angle_difference a b = angle_difference b a ∧
    angle_difference a a = 0 ∧
    (∀ k : ℤ, angle_difference a b ≤ |a - b + 360 * (k : ℚ)|) ∧
    (∃ k : ℤ, angle_difference a b = |a - b + 360 * (k : ℚ)|) := by
  have hm0 : 0 ≤ qmod |a - b| 360 := qmod_nonneg _ (by norm_num)
  have hm360 : qmod |a - b| 360 < 360 := qmod_lt _ (by norm_num)
  refine ⟨?_, ?_, ?_, ?_, ?_, ?_⟩
  · simp only [angle_difference]
    split_ifs with h <;> linarith
  · simp only [angle_difference]
    split_ifs with h <;> linarith
  · simp only [angle_difference, abs_sub_comm a b]
  · have h0 : qmod 0 360 = 0 := by
      unfold qmod
      norm_num
    simp only [angle_difference, sub_self, abs_zero, h0]
    norm_num
  · intro k
    rcases le_or_lt 0 (a - b) with hab | hab
    · have he : abs (|a - b| + 360 * (k : ℚ)) = |a - b + 360 * (k : ℚ)| := by
        rw [abs_of_nonneg hab]
      have h2 := ad_le_abs_aux |a - b| k
      rw [he] at h2
      simpa only [angle_difference] using h2
    · have he : abs (|a - b| + 360 * ((-k : ℤ) : ℚ)) = |a - b + 360 * (k : ℚ)| := by
        rw [abs_of_neg hab]
        push_cast
        rw [show -(a - b) + 360 * (-(k : ℚ)) = -(a - b + 360 * (k : ℚ)) by ring,
          abs_neg]
      have h2 := ad_le_abs_aux |a - b| (-k)
      rw [he] at h2
      simpa only [angle_difference] using h2
  · obtain ⟨j, hj⟩ := ad_eq_abs_aux |a - b|
    rcases le_or_lt 0 (a - b) with hab | hab
    · refine ⟨j, ?_⟩
      simp only [angle_difference]
      rw [hj, abs_of_nonneg hab]
    · refine ⟨-j, ?_⟩
      simp only [angle_difference]
      rw [hj, abs_of_neg hab]
      push_cast
      rw [show -(a - b) + 360 * (j : ℚ) = -(a - b + 360 * (-(j : ℚ))) by ring,
        abs_neg]

/-- Claim C6: the directional predicate holds iff the arrow's `angle` is
within the tolerance (default 5) of the target direction's canonical
angle, by wrap-around angle difference, with the mapping upward = 90,
downward = 270, leftward = 180, rightward = 0. -/
theorem arrow_direction_predicate_spec :
    (∀ (arrow : ArrowObj) (d : Direction) (tol : ℚ),
      is_arrow_pointing_direction arrow d tol = true ↔
        angle_difference arrow.angle (direction_angles d) ≤ tol) ∧
    (∀ (arrow : ArrowObj) (d : Direction),
      is_arrow_pointing_direction arrow d = is_arrow_pointing_direction arrow d 5) ∧
    direction_angles .upward = 90 ∧ direction_angles .downward = 270 ∧
    direction_angles .leftward = 180 ∧ direction_angles .rightward = 0 := by
  refine ⟨?_, ?_, rfl, rfl, rfl, rfl⟩
  · intro arrow d tol
    simp [is_arrow_pointing_direction]
  · intro arrow d
    rfl

theorem orientation_self_right (a b : Pt) : orientation a b b = 0 := by
  unfold orientation
  rw [show (b.2 - a.2) * (b.1 - b.1) - (b.1 - a.1) * (b.2 - b.2) = 0 by ring]
  rw [if_pos]
  rw [abs_zero]
  unfold ORIENT_EPS
  norm_num

theorem orientation_self_left (a b : Pt) : orientation a b a = 0 := by
  unfold orientation
  rw [show (b.2 - a.2) * (a.1 - b.1) - (b.1 - a.1) * (a.2 - b.2) = 0 by ring]
  rw [if_pos]
  rw [abs_zero]
  unfold ORIENT_EPS
  norm_num

theorem on_segment_self_left (a c : Pt) : on_segment a a c = true := by
  simp [on_segment, min_le_left, le_max_left]

theorem on_segment_self_right (a c : Pt) : on_segment a c c = true := by
  simp [on_segment, min_le_right, le_max_right]

theorem line_line_intersect_true_iff (p1 p2 p3 p4 : Pt) :
    line_line_intersect p1 p2 p3 p4 = true ↔
      ((orientation p1 p2 p3 ≠ orientation p1 p2 p4 ∧
        orientation p3 p4 p1 ≠ orientation p3 p4 p2) ∨
       (orientation p1 p2 p3 = 0 ∧ on_segment p1 p3 p2 = true) ∨
       (orientation p1 p2 p4 = 0 ∧ on_segment p1 p4 p2 = true) ∨
       (orientation p3 p4 p1 = 0 ∧ on_segment p3 p1 p4 = true) ∨
       (orientation p3 p4 p2 = 0 ∧ on_segment p3 p2 p4 = true)) := by
  simp only [line_line_intersect]
  split_ifs with h1 h2 h3 h4 h5 <;> simp_all

/-- Claim C7: segment–segment intersection returns true for the crossing
pair `(0,0)-(10,10)` vs `(0,10)-(10,0)`, false for the disjoint parallel
pair `(0,0)-(10,0)` vs `(0,5)-(10,5)`, and true for every pair of segments
sharing an endpoint. -/
theorem segment_intersection_spec :
    line_line_intersect (0, 0) (10, 10) (0, 10) (10, 0) = true ∧
    line_line_intersect (0, 0) (10, 0) (0, 5) (10, 5) = false ∧
    (∀ p1 p2 p3 p4 : Pt, (p1 = p3 ∨ p1 = p4 ∨ p2 = p3 ∨ p2 = p4) →
      line_line_intersect p1 p2 p3 p4 = true) := by
  refine ⟨by with_unfolding_all decide, by with_unfolding_all decide, ?_⟩
  intro p1 p2 p3 p4 h
  rw [line_line_intersect_true_iff]
  rcases h with rfl | rfl | rfl | rfl
  · exact Or.inr (Or.inr (Or.inr (Or.inl
      ⟨orientation_self_left p1 p4, on_segment_self_left p1 p4⟩)))
  · exact Or.inr (Or.inr (Or.inl
      ⟨orientation_self_left p1 p2, on_segment_self_left p1 p2⟩))
  · exact Or.inr (Or.inl
      ⟨orientation_self_right p1 p2, on_segment_self_right p1 p2⟩)
  · exact Or.inr (Or.inr (Or.inl
      ⟨orientation_self_right p1 p2, on_segment_self_right p1 p2⟩))

/-- Witness for C7's endpoint-sharing hypothesis at a concrete input. -/
theorem segment_intersection_spec_witness :
    line_line_intersect (0, 0) (3, 4) (3, 4) (9, 1) = true :=
  segment_intersection_spec.2.2 (0, 0) (3, 4) (3, 4) (9, 1)
    (Or.inr (Or.inr (Or.inl rfl)))

theorem stMap_assign_locked (ctx : Ctx) (ls : List LineLow) (i : ℕ)
    (h : ∀ l ∈ ls, l.locked = true) :
    stMap (LineLow.assign ctx) ls i = (ls, i) := by
  induction ls generalizing i with
  | nil => rfl
  | cons x xs ih =>
    have hx : x.locked = true := h x (by simp)
    simp [stMap, LineLow.assign, hx, ih _ fun l hl => h l (by simp [hl])]

/-- Claim C3: a Line constructed with both endpoints, an Oval constructed
with center/width/height/angle, and a Rectangle constructed with
center/width/height/angle are locked; `assign_geometry` leaves their
geometric parameter fields unchanged (for Line and Oval it is the exact
identity), and re-running it is a no-op: assignment is idempotent once
locked. -/
theorem locked_geometry_idempotent (ctx : Ctx) (q1 q2 c : Pt)
    (w h ang : ℚ) (i : ℕ) :
    LineLow.assign ctx (LineLow.init (some q1) (some q2)) i =
      (LineLow.init (some q1) (some q2), i) ∧
    OvalLow.assign ctx (OvalLow.init (some c) (some w) (some h) (some ang)) i =
      (OvalLow.init (some c) (some w) (some h) (some ang), i) ∧
    ((RectangleObj.assign ctx
        (RectangleObj.init (some c) (some w) (some h) (some ang)) i).1.center = c ∧
     (RectangleObj.assign ctx
        (RectangleObj.init (some c) (some w) (some h) (some ang)) i).1.width = w ∧
     (RectangleObj.assign ctx
        (RectangleObj.init (some c) (some w) (some h) (some ang)) i).1.height = h ∧
     (RectangleObj.assign ctx
        (RectangleObj.init (some c) (some w) (some h) (some ang)) i).1.angle = ang ∧
     RectangleObj.assign ctx
        (RectangleObj.assign ctx
          (RectangleObj.init (some c) (some w) (some h) (some ang)) i).1 i =
       ((RectangleObj.assign ctx
          (RectangleObj.init (some c) (some w) (some h) (some ang)) i).1, i)) := by
  exact ⟨rfl, rfl, rfl, rfl, rfl, rfl, rfl⟩

theorem line_applyT_moved (f : Pt → Pt) (l : LineLow) :
    (LineLow.applyT f l).movedPts = l.movedPts.map f := rfl

theorem line_applyT_locked (f : Pt → Pt) (l : LineLow) :
    (LineLow.applyT f l).locked = l.locked := rfl

theorem lines_moved_map (f : Pt → Pt) (ls : List LineLow) :
    (ls.map (LineLow.applyT f)).foldr (fun l acc => l.movedPts ++ acc) [] =
      ((ls.foldr (fun l acc => l.movedPts ++ acc) []).map f) := by
  induction ls with
  | nil => rfl
  | cons x xs ih =>
    simp only [List.map_cons, List.foldr_cons, ih, List.map_append,
      line_applyT_moved]

theorem lines_locked_map (f : Pt → Pt) (ls : List LineLow) :
    (ls.map (LineLow.applyT f)).map LineLow.locked = ls.map LineLow.locked := by
  induction ls with
  | nil => rfl
  | cons x xs ih => simp only [List.map_cons, ih, line_applyT_locked]

theorem rect_applyT_moved (f : Pt → Pt) (r : RectangleObj) :
    (r.applyT f).movedPts = r.movedPts.map f := by
  simp [RectangleObj.applyT, RectangleObj.movedPts, lines_moved_map]

theorem rect_applyT_scalars (f : Pt → Pt) (r : RectangleObj) :
    (r.applyT f).scalars = r.scalars := rfl

theorem rect_applyT_locked (f : Pt → Pt) (r : RectangleObj) :
    (r.applyT f).lockedFlags = r.lockedFlags := by
  simp only [RectangleObj.applyT, RectangleObj.lockedFlags, lines_locked_map]

theorem rects_moved_map (f : Pt → Pt) (rs : List RectangleObj) :
    (rs.map (RectangleObj.applyT f)).foldr (fun r acc => r.movedPts ++ acc) [] =
      ((rs.foldr (fun r acc => r.movedPts ++ acc) []).map f) := by
  induction rs with
  | nil => rfl
  | cons x xs ih => simp [rect_applyT_moved, ih]

theorem rects_scalars_map (f : Pt → Pt) (rs : List RectangleObj) :
    (rs.map (RectangleObj.applyT f)).foldr (fun r acc => r.scalars ++ acc) [] =
      rs.foldr (fun r acc => r.scalars ++ acc) [] := by
  induction rs with
  | nil => rfl
  | cons x xs ih => simp [rect_applyT_scalars, ih]

theorem rects_locked_map (f : Pt → Pt) (rs : List RectangleObj) :
    (rs.map (RectangleObj.applyT f)).foldr (fun r acc => r.lockedFlags ++ acc) [] =
      rs.foldr (fun r acc => r.lockedFlags ++ acc) [] := by
  induction rs with
  | nil => rfl
  | cons x xs ih => simp [rect_applyT_locked, ih]

theorem bars_applyT_moved (f : Pt → Pt) (b : BarsObj) :
    (b.applyT f).movedPts = b.movedPts.map f := by
  cases hbp : b.base_position <;>
    simp [BarsObj.applyT, BarsObj.movedPts, rects_moved_map, hbp]

theorem bars_applyT_fixed (f : Pt → Pt) (b : BarsObj) :
    (b.applyT f).fixedPts = b.fixedPts := rfl

theorem bars_applyT_scalars (f : Pt → Pt) (b : BarsObj) :
    (b.applyT f).scalars = b.scalars := by
  simp [BarsObj.applyT, BarsObj.scalars, rects_scalars_map]

theorem bars_applyT_locked (f : Pt → Pt) (b : BarsObj) :
    (b.applyT f).lockedFlags = b.lockedFlags := by
  simp [BarsObj.applyT, BarsObj.lockedFlags, rects_locked_map]

theorem axis_applyT_moved (f : Pt → Pt) (a : AxisObj) :
    (a.applyT f).movedPts = a.movedPts.map f := by
  simp only [AxisObj.applyT, AxisObj.movedPts, line_applyT_moved,
    lines_moved_map, List.map_append, List.map_cons, List.cons_append,
    List.nil_append, List.map_nil]

theorem axis_applyT_fixed (f : Pt → Pt) (a : AxisObj) :
    (a.applyT f).fixedPts = a.fixedPts := rfl

theorem axis_applyT_scalars (f : Pt → Pt) (a : AxisObj) :
    (a.applyT f).scalars = a.scalars := rfl

theorem axis_applyT_locked (f : Pt → Pt) (a : AxisObj) :
    (a.applyT f).lockedFlags = a.lockedFlags := by
  simp only [AxisObj.applyT, AxisObj.lockedFlags, line_applyT_locked,
    lines_locked_map]

theorem bargraph_applyT_moved (f : Pt → Pt) (g : BarGraphObj) :
    (g.applyT f).movedPts = g.movedPts.map f := by
  cases hy : g.axis_obj_y <;>
    simp [BarGraphObj.applyT, BarGraphObj.movedPts, bars_applyT_moved,
      axis_applyT_moved, hy]

theorem bargraph_applyT_fixed (f : Pt → Pt) (g : BarGraphObj) :
    (g.applyT f).fixedPts = g.fixedPts := by
  cases hy : g.axis_obj_y <;>
    simp [BarGraphObj.applyT, BarGraphObj.fixedPts, bars_applyT_fixed,
      axis_applyT_fixed, hy]

theorem bargraph_applyT_scalars (f : Pt → Pt) (g : BarGraphObj) :
    (g.applyT f).scalars = g.scalars := by
  cases hy : g.axis_obj_y <;>
    simp [BarGraphObj.applyT, BarGraphObj.scalars, bars_applyT_scalars,
      axis_applyT_scalars, hy]

theorem bargraph_applyT_locked (f : Pt → Pt) (g : BarGraphObj) :
    (g.applyT f).lockedFlags = g.lockedFlags := by
  cases hy : g.axis_obj_y <;>
    simp [BarGraphObj.applyT, BarGraphObj.lockedFlags, bars_applyT_locked,
      axis_applyT_locked, hy]

/-- Claim C9: `apply_transformation(func)` remaps exactly the point-valued
attributes `p1`, `p2`, `center`, `base_position` and the elements of
`vertices`, recursively through all children; every rational scalar
attribute (width, height, radius, length, angle, spacing, axis length,
tick parameters, ...), every untouched point attribute (`ArrowObj.start`,
`AxisObj.start_position`) and every locked flag in the tree is unchanged. -/
theorem apply_transformation_frame (f : Pt → Pt) (s : Shape) :
    (s.applyT f).movedPts = s.movedPts.map f ∧
    (s.applyT f).fixedPts = s.fixedPts ∧
    (s.applyT f).scalars = s.scalars ∧
    (s.applyT f).lockedFlags = s.lockedFlags := by
  cases s with
  | line l =>
    exact ⟨by simp [Shape.applyT, Shape.movedPts, LineLow.applyT,
      LineLow.movedPts], rfl, rfl, rfl⟩
  | oval o =>
    exact ⟨by simp [Shape.applyT, Shape.movedPts, OvalLow.applyT], rfl, rfl, rfl⟩
  | rect r =>
    exact ⟨by simpa [Shape.applyT, Shape.movedPts] using rect_applyT_moved f r,
      rfl, rfl, by simpa [Shape.applyT, Shape.lockedFlags] using
        rect_applyT_locked f r⟩
  | tri t =>
    refine ⟨?_, rfl, rfl, ?_⟩
    · simp only [Shape.applyT, Shape.movedPts, TriangleObj.applyT,
        TriangleObj.movedPts, lines_moved_map, List.map_append]
    · simp only [Shape.applyT, Shape.lockedFlags, TriangleObj.applyT,
        lines_locked_map]
  | poly p =>
    refine ⟨?_, rfl, rfl, ?_⟩
    · simp only [Shape.applyT, Shape.movedPts, PolygonObj.applyT,
        PolygonObj.movedPts, lines_moved_map, List.map_cons]
    · simp only [Shape.applyT, Shape.lockedFlags, PolygonObj.applyT,
        lines_locked_map]
  | arrow a =>
    refine ⟨?_, rfl, rfl, ?_⟩
    · simp only [Shape.applyT, Shape.movedPts, ArrowObj.applyT,
        ArrowObj.movedPts, lines_moved_map]
    · simp only [Shape.applyT, Shape.lockedFlags, ArrowObj.applyT,
        lines_locked_map]
  | bars b =>
    exact ⟨by simpa [Shape.applyT, Shape.movedPts] using bars_applyT_moved f b,
      by simpa [Shape.applyT, Shape.fixedPts] using bars_applyT_fixed f b,
      by simpa [Shape.applyT, Shape.scalars] using bars_applyT_scalars f b,
      by simpa [Shape.applyT, Shape.lockedFlags] using bars_applyT_locked f b⟩
  | axis a =>
    exact ⟨by simpa [Shape.applyT, Shape.movedPts] using axis_applyT_moved f a,
      by simpa [Shape.applyT, Shape.fixedPts] using axis_applyT_fixed f a,
      by simpa [Shape.applyT, Shape.scalars] using axis_applyT_scalars f a,
      by simpa [Shape.applyT, Shape.lockedFlags] using axis_applyT_locked f a⟩
  | bargraph g =>
    exact ⟨by simpa [Shape.applyT, Shape.movedPts] using bargraph_applyT_moved f g,
      by simpa [Shape.applyT, Shape.fixedPts] using bargraph_applyT_fixed f g,
      by simpa [Shape.applyT, Shape.scalars] using bargraph_applyT_scalars f g,
      by simpa [Shape.applyT, Shape.lockedFlags] using bargraph_applyT_locked f g⟩

theorem drawParams_lines (ctx : Ctx) (p : PolygonObj) (i : ℕ) :
    ((PolygonObj.drawParams ctx p i).1).lines = p.lines := by
  unfold PolygonObj.drawParams
  split_ifs <;> rfl

theorem deriveLines_params (ctx : Ctx) (p : PolygonObj) :
    (PolygonObj.deriveLines ctx p).sides = p.sides ∧
    (PolygonObj.deriveLines ctx p).center = p.center ∧
    (PolygonObj.deriveLines ctx p).radius = p.radius ∧
    (PolygonObj.deriveLines ctx p).angle = p.angle := by
  simp only [PolygonObj.deriveLines]
  split_ifs <;> exact ⟨rfl, rfl, rfl, rfl⟩

theorem pgCorners_congr (ctx : Ctx) {p q : PolygonObj} (h1 : p.center = q.center)
    (h2 : p.sides = q.sides) (h3 : p.radius = q.radius) (h4 : p.angle = q.angle) :
    PolygonObj.pgCorners ctx p = PolygonObj.pgCorners ctx q := by
  simp [PolygonObj.pgCorners, h1, h2, h3, h4]

theorem deriveLines_spec (ctx : Ctx) (p : PolygonObj)
    (hle : p.sides ≤ p.lines.length) :
    (PolygonObj.deriveLines ctx p).lines =
      (List.range p.lines.length).map fun j =>
        if j < p.sides then
          { p1 := (PolygonObj.pgCorners ctx p).getD j (0, 0),
            p2 := (PolygonObj.pgCorners ctx p).getD ((j + 1) % p.sides) (0, 0),
            locked := true }
        else ({ p1 := (0, 0), p2 := (0, 0), locked := true } : LineLow) := by
  simp only [PolygonObj.deriveLines, if_pos hle]

/-- Claim C10 (amended): every constructed Polygon owns exactly 10
preallocated Line children; after `assign_geometry`, provided the
(post-assignment) side count is between 1 and 10 — always true for
randomly assigned polygons, whose side count is drawn from 3..6 — the
first `sides` pool lines hold the polygon's edges and every remaining pool
line is the locked degenerate segment `(0,0)-(0,0)`. -/
theorem polygon_line_pool (ctx : Ctx) (pg : PolygonObj) (i : ℕ)
    (hlen : pg.lines.length = 10)
    (hs1 : 1 ≤ ((PolygonObj.assign ctx pg i).1).sides)
    (hs10 : ((PolygonObj.assign ctx pg i).1).sides ≤ 10) :
    (∀ c s r a, (PolygonObj.init c s r a).lines.length = 10) ∧
    polygonPoolProperty ctx ((PolygonObj.assign ctx pg i).1) := by
  constructor
  · intro c s r a
    cases c <;> cases s <;> cases r <;> cases a <;> rfl
  rcases hdp : PolygonObj.drawParams ctx pg i with ⟨p1, i1⟩
  have hassign : (PolygonObj.assign ctx pg i).1 =
      { PolygonObj.deriveLines ctx p1 with
        lines := (stMap (LineLow.assign ctx)
          (PolygonObj.deriveLines ctx p1).lines i1).1 } := by
    simp only [PolygonObj.assign, hdp]
  have hlines1 : p1.lines = pg.lines := by
    have h := drawParams_lines ctx pg i
    rw [hdp] at h
    exact h
  have hsides_out : ((PolygonObj.assign ctx pg i).1).sides = p1.sides := by
    rw [hassign]
    exact (deriveLines_params ctx p1).1
  have hguard : p1.sides ≤ p1.lines.length := by
    rw [hlines1, hlen]
    rw [hsides_out] at hs10
    exact hs10
  have hderive := deriveLines_spec ctx p1 hguard
  have hlocked : ∀ l ∈ (PolygonObj.deriveLines ctx p1).lines, l.locked = true := by
    rw [hderive]
    intro l hl
    simp only [List.mem_map] at hl
    obtain ⟨j, -, rfl⟩ := hl
    by_cases hj : j < p1.sides <;> simp [hj]
  have hout_lines : ((PolygonObj.assign ctx pg i).1).lines =
      (PolygonObj.deriveLines ctx p1).lines := by
    rw [hassign]
    simp [stMap_assign_locked ctx _ i1 hlocked]
  have houtlen : ((PolygonObj.assign ctx pg i).1).lines.length = 10 := by
    rw [hout_lines, hderive]
    simp [hlines1, hlen]
  have hcorners : PolygonObj.pgCorners ctx ((PolygonObj.assign ctx pg i).1) =
      PolygonObj.pgCorners ctx p1 := by
    apply pgCorners_congr
    · rw [hassign]; exact (deriveLines_params ctx p1).2.1
    · exact hsides_out
    · rw [hassign]; exact (deriveLines_params ctx p1).2.2.1
    · rw [hassign]; exact (deriveLines_params ctx p1).2.2.2
  have hlen1 : p1.lines.length = 10 := by rw [hlines1, hlen]
  refine ⟨houtlen, ?_, ?_⟩
  · intro j hj
    rw [hsides_out] at hj
    have hj10 : j < p1.lines.length := lt_of_lt_of_le hj hguard
    rw [hcorners, hsides_out, hout_lines, hderive]
    rw [List.getD_eq_getElem _ _ (by simpa using hj10)]
    simp [hj]
  · intro j hjlen hsle
    rw [hsides_out] at hsle
    rw [houtlen] at hjlen
    have hj10 : j < p1.lines.length := by rw [hlen1]; exact hjlen
    rw [hout_lines, hderive]
    rw [List.getD_eq_getElem _ _ (by simpa using hj10)]
    simp [Nat.not_lt.mpr hsle]

/-- Witness for C10's hypotheses at a concrete locked 4-sided polygon. -/
theorem polygon_line_pool_witness :
    polygonPoolProperty ctxH ((PolygonObj.assign ctxH
      (PolygonObj.init (some (1, 2)) (some 4) (some 5) (some 0)) 0).1) :=
  (polygon_line_pool ctxH
    (PolygonObj.init (some (1, 2)) (some 4) (some 5) (some 0)) 0
    rfl (by decide) (by decide)).2

/-- Counterexample to C10 as stated: a polygon explicitly constructed with
11 sides keeps its 10-line pool, so the "first `sides` lines hold the
edges" part is impossible — no edge derivation happens at all. -/
theorem polygon_pool_counterexample :
    ¬ polygonPoolProperty ctxH ((PolygonObj.assign ctxH poly11 0).1) := by
  intro hp
  obtain ⟨hplen, hedges, -⟩ := hp
  have hs : ((PolygonObj.assign ctxH poly11 0).1).sides = 11 := rfl
  have h10 := hedges 10 (by rw [hs]; norm_num)
  rw [List.getD_eq_default _ _ (by rw [hplen])] at h10
  exact absurd (congrArg LineLow.locked h10) (by simp [LineLow.init])

theorem foldl_min_le_init (a : ℚ) (l : List ℚ) : l.foldl min a ≤ a := by
  induction l generalizing a with
  | nil => exact le_refl a
  | cons x xs ih => exact le_trans (ih (min a x)) (min_le_left a x)

theorem foldl_min_le_mem (a : ℚ) {l : List ℚ} : ∀ {x : ℚ}, x ∈ l →
    l.foldl min a ≤ x := by
  induction l generalizing a with
  | nil => intro x hx; cases hx
  | cons y ys ih =>
    intro x hx
    rcases List.mem_cons.mp hx with rfl | hmem
    · exact le_trans (foldl_min_le_init (min a x) ys) (min_le_right a x)
    · exact ih (min a y) hmem

theorem le_foldl_max_init (a : ℚ) (l : List ℚ) : a ≤ l.foldl max a := by
  induction l generalizing a with
  | nil => exact le_refl a
  | cons x xs ih => exact le_trans (le_max_left a x) (ih (max a x))

theorem le_foldl_max_mem (a : ℚ) {l : List ℚ} : ∀ {x : ℚ}, x ∈ l →
    x ≤ l.foldl max a := by
  induction l generalizing a with
  | nil => intro x hx; cases hx
  | cons y ys ih =>
    intro x hx
    rcases List.mem_cons.mp hx with rfl | hmem
    · exact le_trans (le_max_right a x) (le_foldl_max_init (max a x) ys)
    · exact ih (max a y) hmem

/-- Every root shape's bounding box lies inside the scene's global
bounding box. -/
theorem global_bbox_bounds (ctx : Ctx) (scene : List Shape) {s : Shape}
    (hs : s ∈ scene) :
    global_min_x ctx scene ≤ (Shape.get_bbox ctx s).min_x ∧
    (Shape.get_bbox ctx s).max_x ≤ global_max_x ctx scene ∧
    global_min_y ctx scene ≤ (Shape.get_bbox ctx s).min_y ∧
    (Shape.get_bbox ctx s).max_y ≤ global_max_y ctx scene := by
  cases scene with
  | nil => cases hs
  | cons hd tl =>
    have hminx : global_min_x ctx (hd :: tl) =
        ((tl.map (Shape.get_bbox ctx)).map BBox.min_x).foldl min
          (Shape.get_bbox ctx hd).min_x := rfl
    have hmaxx : global_max_x ctx (hd :: tl) =
        ((tl.map (Shape.get_bbox ctx)).map BBox.max_x).foldl max
          (Shape.get_bbox ctx hd).max_x := rfl
    have hminy : global_min_y ctx (hd :: tl) =
        ((tl.map (Shape.get_bbox ctx)).map BBox.min_y).foldl min
          (Shape.get_bbox ctx hd).min_y := rfl
    have hmaxy : global_max_y ctx (hd :: tl) =
        ((tl.map (Shape.get_bbox ctx)).map BBox.max_y).foldl max
          (Shape.get_bbox ctx hd).max_y := rfl
    rw [hminx, hmaxx, hminy, hmaxy]
    rcases List.mem_cons.mp hs with rfl | hmem
    · exact ⟨foldl_min_le_init _ _, le_foldl_max_init _ _,
        foldl_min_le_init _ _, le_foldl_max_init _ _⟩
    · have hbmem : Shape.get_bbox ctx s ∈ tl.map (Shape.get_bbox ctx) :=
        List.mem_map_of_mem _ hmem
      exact ⟨foldl_min_le_mem _ (List.mem_map_of_mem _ hbmem),
        le_foldl_max_mem _ (List.mem_map_of_mem _ hbmem),
        foldl_min_le_mem _ (List.mem_map_of_mem _ hbmem),
        le_foldl_max_mem _ (List.mem_map_of_mem _ hbmem)⟩

theorem fit_scale_pos (ctx : Ctx) (scene : List Shape)
    (cxmin cxmax cymin cymax : ℚ)
    (hw : 0 < scene_width ctx scene) (hh : 0 < scene_height ctx scene)
    (hcw : 0 < cxmax - cxmin) (hch : 0 < cymax - cymin) :
    0 < fit_scale ctx scene (cxmin, cxmax, cymin, cymax) := by
  unfold fit_scale
  exact lt_min (lt_min (div_pos hcw hw) (div_pos hch hh)) one_pos

theorem fit_scale_mul_width (ctx : Ctx) (scene : List Shape)
    (cxmin cxmax cymin cymax : ℚ) (hw : 0 < scene_width ctx scene) :
    fit_scale ctx scene (cxmin, cxmax, cymin, cymax) * scene_width ctx scene ≤
      cxmax - cxmin := by
  have h1 : fit_scale ctx scene (cxmin, cxmax, cymin, cymax) ≤
      (cxmax - cxmin) / scene_width ctx scene :=
    le_trans (min_le_left _ _) (min_le_left _ _)
  calc fit_scale ctx scene (cxmin, cxmax, cymin, cymax) * scene_width ctx scene
      ≤ (cxmax - cxmin) / scene_width ctx scene * scene_width ctx scene :=
        mul_le_mul_of_nonneg_right h1 hw.le
    _ = cxmax - cxmin := div_mul_cancel₀ _ hw.ne'

theorem fit_scale_mul_height (ctx : Ctx) (scene : List Shape)
    (cxmin cxmax cymin cymax : ℚ) (hh : 0 < scene_height ctx scene) :
    fit_scale ctx scene (cxmin, cxmax, cymin, cymax) * scene_height ctx scene ≤
      cymax - cymin := by
  have h1 : fit_scale ctx scene (cxmin, cxmax, cymin, cymax) ≤
      (cymax - cymin) / scene_height ctx scene :=
    le_trans (min_le_left _ _) (min_le_right _ _)
  calc fit_scale ctx scene (cxmin, cxmax, cymin, cymax) * scene_height ctx scene
      ≤ (cymax - cymin) / scene_height ctx scene * scene_height ctx scene :=
        mul_le_mul_of_nonneg_right h1 hh.le
    _ = cymax - cymin := div_mul_cancel₀ _ hh.ne'

/-- Any point inside the scene's global bounding box is mapped by the
canvas-fit transform into the canvas rectangle. -/
theorem fit_transform_bounds (ctx : Ctx) (scene : List Shape)
    (cxmin cxmax cymin cymax : ℚ)
    (hw : 0 < scene_width ctx scene) (hh : 0 < scene_height ctx scene)
    (hcw : 0 < cxmax - cxmin) (hch : 0 < cymax - cymin) (p : Pt)
    (hx1 : global_min_x ctx scene ≤ p.1) (hx2 : p.1 ≤ global_max_x ctx scene)
    (hy1 : global_min_y ctx scene ≤ p.2) (hy2 : p.2 ≤ global_max_y ctx scene) :
    cxmin ≤ (fit_transform ctx scene (cxmin, cxmax, cymin, cymax) p).1 ∧
    (fit_transform ctx scene (cxmin, cxmax, cymin, cymax) p).1 ≤ cxmax ∧
    cymin ≤ (fit_transform ctx scene (cxmin, cxmax, cymin, cymax) p).2 ∧
    (fit_transform ctx scene (cxmin, cxmax, cymin, cymax) p).2 ≤ cymax := by
  have hpos := fit_scale_pos ctx scene cxmin cxmax cymin cymax hw hh hcw hch
  have hmw := fit_scale_mul_width ctx scene cxmin cxmax cymin cymax hw
  have hmh := fit_scale_mul_height ctx scene cxmin cxmax cymin cymax hh
  have hxlo : 0 ≤ fit_scale ctx scene (cxmin, cxmax, cymin, cymax) *
      (p.1 - global_min_x ctx scene) := mul_nonneg hpos.le (by linarith)
  have hxhi : fit_scale ctx scene (cxmin, cxmax, cymin, cymax) *
      (p.1 - global_min_x ctx scene) ≤
        fit_scale ctx scene (cxmin, cxmax, cymin, cymax) *
          scene_width ctx scene := by
    unfold scene_width
    exact mul_le_mul_of_nonneg_left (by linarith) hpos.le
  have hylo : 0 ≤ fit_scale ctx scene (cxmin, cxmax, cymin, cymax) *
      (p.2 - global_min_y ctx scene) := mul_nonneg hpos.le (by linarith)
  have hyhi : fit_scale ctx scene (cxmin, cxmax, cymin, cymax) *
      (p.2 - global_min_y ctx scene) ≤
        fit_scale ctx scene (cxmin, cxmax, cymin, cymax) *
          scene_height ctx scene := by
    unfold scene_height
    exact mul_le_mul_of_nonneg_left (by linarith) hpos.le
  simp only [fit_transform]
  refine ⟨by linarith, by linarith, by linarith, by linarith⟩

/-- Claim C1 (amended): for a scene all of whose root shapes are Lines
(whose bounding boxes derive from the transformed endpoint fields), with
non-degenerate extents and a proper canvas, every post-fit bounding box
reported by `get_bbox` is contained in the canvas rectangle — covering
both scenes larger than the canvas (scale < 1) and scenes smaller than it
(scale = 1).  For shapes such as Ovals, whose `get_bbox` uses the
untransformed `width`/`height` scalars, containment can fail when the
scene is shrunk (see the counterexample). -/
theorem canvas_fit_line_scenes (ctx : Ctx) (scene : List Shape)
    (cxmin cxmax cymin cymax : ℚ)
    (hlines : ∀ s ∈ scene, ∃ l : LineLow, s = Shape.line l)
    (hw : 0 < scene_width ctx scene) (hh : 0 < scene_height ctx scene)
    (hcw : 0 < cxmax - cxmin) (hch : 0 < cymax - cymin) :
    ∀ s ∈ adjust_scene ctx scene (cxmin, cxmax, cymin, cymax),
      cxmin ≤ (Shape.get_bbox ctx s).min_x ∧
      (Shape.get_bbox ctx s).max_x ≤ cxmax ∧
      cymin ≤ (Shape.get_bbox ctx s).min_y ∧
      (Shape.get_bbox ctx s).max_y ≤ cymax := by
  intro s hs
  cases hscene : scene with
  | nil =>
    rw [hscene] at hs
    cases hs
  | cons hd tl =>
    rw [hscene] at hs
    have hs' : s ∈ (hd :: tl).map
        (Shape.applyT (fit_transform ctx (hd :: tl)
          (cxmin, cxmax, cymin, cymax))) := hs
    rw [List.mem_map] at hs'
    obtain ⟨s0, hmem0, rfl⟩ := hs'
    rw [← hscene] at hmem0 ⊢
    obtain ⟨l, rfl⟩ := hlines s0 hmem0
    have hb := global_bbox_bounds ctx scene hmem0
    have hbbox : Shape.get_bbox ctx (Shape.line l) = l.get_bbox := rfl
    rw [hbbox] at hb
    have hp1x : global_min_x ctx scene ≤ l.p1.1 ∧ l.p1.1 ≤ global_max_x ctx scene :=
      ⟨le_trans hb.1 (min_le_left _ _), le_trans (le_max_left _ _) hb.2.1⟩
    have hp2x : global_min_x ctx scene ≤ l.p2.1 ∧ l.p2.1 ≤ global_max_x ctx scene :=
      ⟨le_trans hb.1 (min_le_right _ _), le_trans (le_max_right _ _) hb.2.1⟩
    have hp1y : global_min_y ctx scene ≤ l.p1.2 ∧ l.p1.2 ≤ global_max_y ctx scene :=
      ⟨le_trans hb.2.2.1 (min_le_left _ _), le_trans (le_max_left _ _) hb.2.2.2⟩
    have hp2y : global_min_y ctx scene ≤ l.p2.2 ∧ l.p2.2 ≤ global_max_y ctx scene :=
      ⟨le_trans hb.2.2.1 (min_le_right _ _), le_trans (le_max_right _ _) hb.2.2.2⟩
    have ht1 := fit_transform_bounds ctx scene cxmin cxmax cymin cymax hw hh
      hcw hch l.p1 hp1x.1 hp1x.2 hp1y.1 hp1y.2
    have ht2 := fit_transform_bounds ctx scene cxmin cxmax cymin cymax hw hh
      hcw hch l.p2 hp2x.1 hp2x.2 hp2y.1 hp2y.2
    refine ⟨le_min ht1.1 ht2.1, max_le ht1.2.1 ht2.2.1,
      le_min ht1.2.2.1 ht2.2.2.1, max_le ht1.2.2.2 ht2.2.2.2⟩

/-- Witness for C1's hypotheses: the one-line scene `(0,0)-(10,5)` fitted
into the 100×100 canvas becomes the recentred line `(45,95/2)-(55,105/2)`,
whose box is inside the canvas. -/
theorem canvas_fit_line_scenes_witness :
    (0 : ℚ) ≤ (Shape.get_bbox ctxH (Shape.line
      { p1 := (45, 95/2), p2 := (55, 105/2), locked := true })).min_x ∧
    (Shape.get_bbox ctxH (Shape.line
      { p1 := (45, 95/2), p2 := (55, 105/2), locked := true })).max_x ≤ 100 ∧
    (0 : ℚ) ≤ (Shape.get_bbox ctxH (Shape.line
      { p1 := (45, 95/2), p2 := (55, 105/2), locked := true })).min_y ∧
    (Shape.get_bbox ctxH (Shape.line
      { p1 := (45, 95/2), p2 := (55, 105/2), locked := true })).max_y ≤ 100 :=
  canvas_fit_line_scenes ctxH
    [Shape.line (LineLow.init (some (0, 0)) (some (10, 5)))] 0 100 0 100
    (by intro s hs; rw [List.mem_singleton] at hs; exact ⟨_, hs⟩)
    (by with_unfolding_all decide) (by with_unfolding_all decide)
    (by norm_num) (by norm_num)
    (Shape.line { p1 := (45, 95/2), p2 := (55, 105/2), locked := true })
    (by with_unfolding_all decide)

/-- Counterexample to C1 as stated: a scene consisting of one Oval with
width = height = 200 centred at the origin, fitted to the canvas
`(0,100,0,100)`: the transform scales positions by 1/2 but `get_bbox`
keeps the unscaled width/height, so the post-fit box is
`(-50,-50,150,150)`, not contained in the canvas. -/
theorem canvas_fit_counterexample :
    ¬ (∀ s ∈ adjust_scene ctxH [Shape.oval oval200] (0, 100, 0, 100),
        (0 : ℚ) ≤ (Shape.get_bbox ctxH s).min_x ∧
        (Shape.get_bbox ctxH s).max_x ≤ 100 ∧
        (0 : ℚ) ≤ (Shape.get_bbox ctxH s).min_y ∧
        (Shape.get_bbox ctxH s).max_y ≤ 100) := by
  with_unfolding_all decide

/-- Claim C4 (amended): a plan entry whose alias is not in `OBJECT_TYPES`
is silently skipped — it contributes no objects and no error is reported;
construction simply continues with the remaining entries (and nothing is
retried). -/
theorem unknown_kind_skipped (ctx : Ctx) (aliasName : String) (spec : PlanSpec)
    (rest : Plan) (i : ℕ) (h : OBJECT_TYPES_get aliasName = none) :
    build_scene_from_plan ctx ((aliasName, spec) :: rest) i =
      build_scene_from_plan ctx rest i := by
  simp [build_scene_from_plan, h]

/-- Witness for C4's hypothesis at the concrete unknown alias `"Foo"`. -/
theorem unknown_kind_skipped_witness :
    build_scene_from_plan ctxH [("Foo", PlanSpec.count 1)] 0 =
      build_scene_from_plan ctxH [] 0 :=
  unknown_kind_skipped ctxH "Foo" (PlanSpec.count 1) [] 0 rfl

/-- Counterexample to C4 as stated: requesting the unknown kind `"Foo"`
does not fail fast — `build_scene_from_plan` returns normally with an
empty scene, and `create_scene` then pads it to a full 3-object scene as
if the entry had never been there. -/
theorem unknown_kind_counterexample :
    build_scene_from_plan ctxH [("Foo", PlanSpec.count 1)] 0 = ([], 0) ∧
    ((create_scene ctxH [("Foo", PlanSpec.count 1)] [] (0, 100, 0, 100)
      false 0).1).length = 3 := by
  constructor
  · rfl
  · with_unfolding_all decide

theorem Shape.assign_alias (ctx : Ctx) (s : Shape) (i : ℕ) :
    ((Shape.assign ctx s i).1).alias = s.alias := by
  cases s <;> rfl

theorem Shape.applyT_alias (f : Pt → Pt) (s : Shape) :
    (Shape.applyT f s).alias = s.alias := by
  cases s <;> rfl

theorem stMap_length {α β : Type} (f : α → ℕ → β × ℕ) (l : List α) (i : ℕ) :
    ((stMap f l i).1).length = l.length := by
  induction l generalizing i with
  | nil => rfl
  | cons x xs ih => simp [stMap, ih]

theorem stMap_map_alias (ctx : Ctx) (l : List Shape) (i : ℕ) :
    ((stMap (Shape.assign ctx) l i).1).map Shape.alias = l.map Shape.alias := by
  induction l generalizing i with
  | nil => rfl
  | cons x xs ih => simp [stMap, Shape.assign_alias, ih]

theorem adjust_length (ctx : Ctx) (l : List Shape) (cv : Canvas) :
    (adjust_scene ctx l cv).length = l.length := by
  cases l with
  | nil => rfl
  | cons h t => simp [adjust_scene]

theorem adjust_map_alias (ctx : Ctx) (l : List Shape) (cv : Canvas) :
    (adjust_scene ctx l cv).map Shape.alias = l.map Shape.alias := by
  cases l with
  | nil => rfl
  | cons h t => simp [adjust_scene, Shape.applyT_alias]

theorem keys_spec : ∀ name ∈ OBJECT_TYPES_keys, ∃ tag : ClassTag,
    OBJECT_TYPES_get name = some tag ∧
    ∀ (ctx : Ctx) (i : ℕ), ((tag.new ctx i).1).alias = name := by
  intro name hname
  fin_cases hname <;> exact ⟨_, rfl, fun ctx i => rfl⟩

theorem padLoop_spec (ctx : Ctx) (available : List String)
    (hsub : ∀ a ∈ available, a ∈ OBJECT_TYPES_keys) (hav : available ≠ []) :
    ∀ (n : ℕ) (scene : List Shape) (i : ℕ), ∃ extras : List Shape,
      (padLoop ctx available n scene i).1 = scene ++ extras ∧
      extras.length = n ∧ ∀ s ∈ extras, s.alias ∈ available := by
  intro n
  induction n with
  | zero => exact fun scene i => ⟨[], by simp [padLoop], rfl, by simp⟩
  | succ m ih =>
    intro scene i
    have hcmem : (choice ctx i available "Line").1 ∈ available := by
      unfold choice
      have hlen : 0 < available.length := List.length_pos.mpr hav
      have hidx : ctx.rngN i % available.length < available.length :=
        Nat.mod_lt _ hlen
      rw [List.getD_eq_getElem _ _ hidx]
      exact List.getElem_mem hidx
    obtain ⟨tag, htag, halias⟩ := keys_spec _ (hsub _ hcmem)
    have hch : choice ctx i available "Line" =
        ((choice ctx i available "Line").1, i + 1) := rfl
    have hstep : padLoop ctx available (m + 1) scene i =
        padLoop ctx available m (scene ++ [(tag.new ctx (i + 1)).1])
          ((tag.new ctx (i + 1)).2) := by
      rw [padLoop, if_neg hav, hch]
      simp only [htag]
    obtain ⟨extras', h1, h2, h3⟩ := ih (scene ++ [(tag.new ctx (i + 1)).1])
      ((tag.new ctx (i + 1)).2)
    refine ⟨(tag.new ctx (i + 1)).1 :: extras', ?_, by simp [h2], ?_⟩
    · rw [hstep, h1]
      simp
    · intro s hsmem
      rcases List.mem_cons.mp hsmem with rfl | hm
      · rw [halias ctx (i + 1)]
        exact hcmem
      · exact h3 s hm

theorem take_drop_append_subset {α : Type} (A B : List α) (n : ℕ) :
    ∀ x ∈ ((A ++ B).take n).drop A.length, x ∈ B := by
  intro x hx
  have h1 : ((A ++ B).take n).drop A.length ⊆ ((A ++ B).drop A.length).take
      (n - A.length) := by
    rw [List.drop_take]
    exact fun y hy => hy
  have h2 := List.take_subset (n - A.length) ((A ++ B).drop A.length) (h1 hx)
  rwa [List.drop_left] at h2

/-- Claim C5: with at least one constructible kind not avoided, the scene
returned by `create_scene` has between 3 and 6 roots — exactly
`min (max built 3) 6` of them where `built` is the plan's own yield — and
every root beyond the plan's own objects (the padded distractors, which
are appended before trimming, geometry assignment and canvas fit) is of a
kind outside the avoid list. -/
theorem create_scene_band (ctx : Ctx) (plan : Plan) (avoid_types : List String)
    (canvas : Canvas) (ap : Bool) (i : ℕ)
    (hav : OBJECT_TYPES_keys.filter (fun t => decide (t ∉ avoid_types)) ≠ []) :
    3 ≤ ((create_scene ctx plan avoid_types canvas ap i).1).length ∧
    ((create_scene ctx plan avoid_types canvas ap i).1).length ≤ 6 ∧
    ((create_scene ctx plan avoid_types canvas ap i).1).length =
      min (max ((build_scene_from_plan ctx plan i).1).length 3) 6 ∧
    ∀ q ∈ (((create_scene ctx plan avoid_types canvas ap i).1).map
        Shape.alias).drop ((build_scene_from_plan ctx plan i).1).length,
      q ∉ avoid_types := by
  set avail := OBJECT_TYPES_keys.filter (fun t => decide (t ∉ avoid_types))
    with havail
  set built := (build_scene_from_plan ctx plan i).1 with hbuilt
  set ibuilt := (build_scene_from_plan ctx plan i).2 with hibuilt
  have hsub : ∀ a ∈ avail, a ∈ OBJECT_TYPES_keys := fun a ha =>
    List.mem_of_mem_filter ha
  obtain ⟨extras, hpad, hlenx, haliasx⟩ :=
    padLoop_spec ctx avail hsub hav (3 - built.length) built ibuilt
  set ipad := (padLoop ctx avail (3 - built.length) built ibuilt).2 with hipad
  have hcs : (create_scene ctx plan avoid_types canvas ap i).1 =
      (if ap then
        (stMap (Shape.assign ctx)
          (((padLoop ctx avail (3 - built.length) built ibuilt).1).take 6)
          ipad).1
      else adjust_scene ctx
        (stMap (Shape.assign ctx)
          (((padLoop ctx avail (3 - built.length) built ibuilt).1).take 6)
          ipad).1 canvas) := rfl
  have hlen3 : ((create_scene ctx plan avoid_types canvas ap i).1).length =
      min 6 (built.length + (3 - built.length)) := by
    rw [hcs]
    rcases ap with _ | _ <;>
      simp [adjust_length, stMap_length, hpad, List.length_take, hlenx]
  have halist : ((create_scene ctx plan avoid_types canvas ap i).1).map
      Shape.alias = ((built ++ extras).map Shape.alias).take 6 := by
    rw [hcs]
    rcases ap with _ | _ <;>
      simp [adjust_map_alias, stMap_map_alias, hpad, List.map_take]
  refine ⟨by omega, by omega, by omega, ?_⟩
  intro q hq
  rw [halist, List.map_append] at hq
  have hq2 := take_drop_append_subset (built.map Shape.alias)
    (extras.map Shape.alias) 6 q (by simpa using hq)
  rw [List.mem_map] at hq2
  obtain ⟨s, hsm, rfl⟩ := hq2
  have := haliasx s hsm
  rw [havail, List.mem_filter] at this
  exact of_decide_eq_true this.2

/-- Witness for C5's hypotheses: the empty plan with nothing avoided pads
up to exactly 3 root shapes. -/
theorem create_scene_band_witness :
    3 ≤ ((create_scene ctxH [] [] (0, 100, 0, 100) false 0).1).length ∧
    ((create_scene ctxH [] [] (0, 100, 0, 100) false 0).1).length ≤ 6 :=
  ⟨(create_scene_band ctxH [] [] (0, 100, 0, 100) false 0 (by decide)).1,
   (create_scene_band ctxH [] [] (0, 100, 0, 100) false 0 (by decide)).2.1⟩

theorem ppLoop_exhausted (ctx : Ctx) (answer tp : Bool) (w h : ℚ) (cv : Canvas) :
    ∀ (n i : ℕ) (prev : List Shape),
      ppNoBreak ctx answer tp w h cv n i = true →
      (ppLoop ctx answer tp w h cv n i prev).1 =
        ppLastScene ctx answer tp w h cv n i prev := by
  intro n
  induction n with
  | zero => intro i prev _; rfl
  | succ m ih =>
    intro i prev hnb
    rcases hsi : ppAttempt ctx answer tp w h cv i with ⟨si, i'⟩
    rw [ppNoBreak, hsi] at hnb
    simp only [Bool.and_eq_true, Bool.not_eq_true'] at hnb
    rw [ppLoop, ppLastScene, hsi]
    simp only [hnb.1, Bool.false_eq_true, if_false]
    exact ih i' si.1 hnb.2

theorem pp_demo_reports_requested_answer (ctx : Ctx) (answer : Bool)
    (cs : ℚ × ℚ) (i : ℕ) :
    ((demo_question_parallel_perp_lines ctx answer cs i).1).answer = answer := by
  rcases cs with ⟨w, h⟩
  cases answer <;> simp only [demo_question_parallel_perp_lines] <;>
    first
      | rfl
      | (split_ifs <;> rfl)

theorem arrowLoopFalse_exhausted (ctx : Ctx) (w h : ℚ) (cv : Canvas)
    (direction : String) :
    ∀ (rem i : ℕ),
      arrowAllViolate ctx w h cv direction (rem + 1) i = true →
      arrowLoopFalse ctx w h cv direction (rem + 1) i =
        .error ARROW_CHECK_FAILED := by
  intro rem
  induction rem with
  | zero =>
    intro i hv
    rcases hat : arrowAttempt ctx w h cv direction i with ⟨st, i'⟩
    rw [arrowAllViolate, hat] at hv
    cases st with
    | accept s => simp at hv
    | reject =>
      rw [arrowLoopFalse, hat]
      rfl
  | succ m ih =>
    intro i hv
    rcases hat : arrowAttempt ctx w h cv direction i with ⟨st, i'⟩
    rw [arrowAllViolate, hat] at hv
    cases st with
    | accept s => simp at hv
    | reject =>
      rw [arrowLoopFalse, hat]
      simp only [Nat.succ_ne_zero, if_false]
      exact ih i' hv

/-- Claim C2 (amended): on retry exhaustion the parallel/perpendicular
demo silently accepts the last-generated candidate — the record handed to
the renderer/serializer carries the originally requested answer and no
fallback flag, whether or not the search matched; the arrow-direction demo
with `answer=False`, by contrast, raises an exception (fatal) when every
attempt within the retry bound contains a violating arrow. -/
theorem search_exhaustion_behaviour :
    (∀ (ctx : Ctx) (answer tp : Bool) (w h : ℚ) (cv : Canvas) (n i : ℕ)
        (prev : List Shape),
      ppNoBreak ctx answer tp w h cv n i = true →
      (ppLoop ctx answer tp w h cv n i prev).1 =
        ppLastScene ctx answer tp w h cv n i prev) ∧
    (∀ (ctx : Ctx) (answer : Bool) (cs : ℚ × ℚ) (i : ℕ),
      ((demo_question_parallel_perp_lines ctx answer cs i).1).answer = answer) ∧
    (∀ (ctx : Ctx) (w h : ℚ) (cv : Canvas) (direction : String) (rem i : ℕ),
      arrowAllViolate ctx w h cv direction (rem + 1) i = true →
      arrowLoopFalse ctx w h cv direction (rem + 1) i =
        .error ARROW_CHECK_FAILED) :=
  ⟨fun ctx answer tp w h cv => ppLoop_exhausted ctx answer tp w h cv,
   pp_demo_reports_requested_answer,
   fun ctx w h cv direction => arrowLoopFalse_exhausted ctx w h cv direction⟩

/-- Witness for C2's hypotheses: a context under which all 50 parallel-demo
attempts fail to break, and a context under which all 5 arrow-demo
attempts contain a violating arrow. -/
theorem search_exhaustion_behaviour_witness :
    (ppLoop ctxPP false true 100 100 (0, 100, 0, 100) 50 0 []).1 =
      ppLastScene ctxPP false true 100 100 (0, 100, 0, 100) 50 0 [] ∧
    arrowLoopFalse ctxArrow 100 100 (0, 100, 0, 100) "downward" 5 1 =
      .error ARROW_CHECK_FAILED :=
  ⟨search_exhaustion_behaviour.1 ctxPP false true 100 100 (0, 100, 0, 100)
      50 0 [] (by with_unfolding_all decide),
   search_exhaustion_behaviour.2.2 ctxArrow 100 100 (0, 100, 0, 100)
      "downward" 4 1 (by with_unfolding_all decide)⟩

/-- Counterexample to C2 as stated: a full run of
`demo_question_arrow_direction(answer=False)` that exhausts its retry
bound does not fall back to the last candidate — it raises an exception. -/
theorem arrow_demo_exhaustion_raises :
    demo_question_arrow_direction ctxArrow false (100, 100) 0 =
      .error ARROW_CHECK_FAILED := by
  with_unfolding_all rfl
